import Mathlib

/-!
Shallow embedding of `src/static/script.js` — the client-side logic of a
Bulls-and-Cows game (OTP-style digit inputs, turn orchestration against a
remote game service, history logs, win overlay and confetti animation).

DOM elements are modelled as records in an association list keyed by element
id; event handlers and the orchestrator functions become pure state
transformers.  JavaScript numbers that can be `NaN` (the results of
`parseInt`) are modelled by `JSNum`; network exchanges are modelled by
passing the (optional) parsed response as an argument, `none` standing for a
transport failure.  Timers (`setTimeout`) are recorded as scheduled actions
rather than executed, and `setInterval` loops are modelled as explicit tick
step functions.
-/

namespace BullsCows

/-- JavaScript number restricted to the values that arise in this script:
either an integer or `NaN` (what `parseInt` yields on non-numeric input). -/
inductive JSNum where
  | nan : JSNum
  | num : Int → JSNum
deriving Repr, DecidableEq

/-- JavaScript `+` on such numbers: any operation touching `NaN` is `NaN`. -/
def JSNum.add : JSNum → JSNum → JSNum
  | JSNum.num a, JSNum.num b => JSNum.num (a + b)
  | _, _ => JSNum.nan

/-- JavaScript `>`: every comparison with `NaN` is false. -/
def JSNum.gt : JSNum → JSNum → Bool
  | JSNum.num a, JSNum.num b => decide (a > b)
  | _, _ => false

/-- Digit accumulation used by `parseInt`. -/
def digitsToNat (ds : List Char) : Nat :=
  ds.foldl (fun acc c => acc * 10 + (c.toNat - ('0').toNat)) 0

/-- Model of JavaScript `parseInt(s, 10)`: skip leading whitespace, read an
optional sign and then leading decimal digits; `NaN` when no digit follows. -/
def parseInt (s : String) : JSNum :=
  let cs := s.toList.dropWhile (fun c => c.isWhitespace)
  let signAndRest : Int × List Char :=
    match cs with
    | '-' :: rest => (-1, rest)
    | '+' :: rest => (1, rest)
    | _ => (1, cs)
  let digits := signAndRest.2.takeWhile (fun c => c.isDigit)
  if digits.isEmpty then JSNum.nan
  else JSNum.num (signAndRest.1 * (digitsToNat digits : Int))

/-- JavaScript `>=`: every comparison with `NaN` is false. -/
def JSNum.ge : JSNum → JSNum → Bool
  | JSNum.num a, JSNum.num b => decide (a ≥ b)
  | _, _ => false

/-- JavaScript string interpolation of such a number. -/
def JSNum.toStr : JSNum → String
  | JSNum.nan => "NaN"
  | JSNum.num n => toString n

/-- One OTP digit box: its `value` property and whether it carries the
`filled` CSS class. -/
structure OtpBox where
  value : String
  filled : Bool
deriving Repr, DecidableEq

/-- A cleared box, as produced by the backspace handler and `clearOtpBoxes`. -/
def emptyBox : OtpBox := { value := "", filled := false }

/-- The `keydown` handler for `Backspace` in `initOtpBoxes` (script.js
44-55): with the focused box `idx` empty and `idx > 0`, clear box `idx-1`
and move focus there; otherwise clear the focused box and leave focus.
State is the list of boxes together with the focused index. -/
def backspaceHandler (boxes : List OtpBox) (idx : Nat) : List OtpBox × Nat :=
  if (boxes.getD idx emptyBox).value = "" ∧ idx > 0 then
    (boxes.set (idx - 1) emptyBox, idx - 1)
  else
    (boxes.set idx emptyBox, idx)

/-- `n` successive backspace key presses. -/
def backspaceN : Nat → List OtpBox × Nat → List OtpBox × Nat
  | 0, st => st
  | n + 1, st => backspaceN n (backspaceHandler st.1 st.2)

/-- The digit extraction done by the paste handler (script.js 76-79):
`.replace(/[^0-9]/g, '').slice(0, 4)`. -/
def pasteDigits (clip : String) : List Char :=
  (clip.toList.filter (fun c => c.isDigit)).take 4

/-- The `forEach` write-back of the paste handler (script.js 81-86): cell
`i` receives pasted character `i` and is marked filled; cells past the
pasted prefix keep their previous value. -/
def pasteWrite (boxes : List OtpBox) (pasted : List Char) : List OtpBox :=
  boxes.mapIdx fun i b =>
    match pasted.get? i with
    | some ch => { value := ch.toString, filled := true }
    | none => b

/-- The complete paste handler (script.js 74-91): new box states plus the
index receiving focus (`boxes.find(b => b.value === '')`, else the last
box). -/
def pasteHandler (boxes : List OtpBox) (clip : String) : List OtpBox × Nat :=
  let boxes' := pasteWrite boxes (pasteDigits clip)
  let focus :=
    match boxes'.findIdx? (fun b => b.value = "") with
    | some j => j
    | none => boxes'.length - 1
  (boxes', focus)

/-- JavaScript `Array.prototype.join(sep)`. -/
def joinSep (sep : String) : List String → String
  | [] => ""
  | [x] => x
  | x :: y :: xs => x ++ sep ++ joinSep sep (y :: xs)

/-- `s.replace(/\s/g, '')` — drop every whitespace character. -/
def stripWhitespace (s : String) : String :=
  String.mk (s.toList.filter (fun c => ¬ c.isWhitespace))

/-- `s.repeat(n)` on strings. -/
def strRepeat (s : String) (n : Nat) : String :=
  String.join (List.replicate n s)

/-- JavaScript `String.prototype.trim()`: strip leading and trailing
whitespace. -/
def jsTrim (s : String) : String :=
  String.mk
    (((s.toList.dropWhile (fun c => c.isWhitespace)).reverse.dropWhile
        (fun c => c.isWhitespace)).reverse)

/-- One appended row of a history sidebar list
(`addHistoryRow`: guess digits plus bulls/cows counts). -/
structure HistoryRow where
  guess : String
  bulls : JSNum
  cows : JSNum
deriving Repr, DecidableEq

/-- A DOM element, restricted to the properties this script touches:
`style.display`, `textContent`, `style.animation`, `value` (selects), the
`disabled` flag (buttons), the contained `.otp-box` children, the appended
`.history-row` children and the one-time `.history-empty` placeholder. -/
structure Element where
  display : String := ""
  textContent : String := ""
  animationStyle : String := ""
  value : String := ""
  disabled : Bool := false
  boxes : List OtpBox := []
  rows : List HistoryRow := []
  hasEmptyPlaceholder : Bool := false
deriving Repr, DecidableEq

/-- The document: an association list from element id to element. -/
abbrev DOM : Type := List (String × Element)

/-- `document.getElementById`: first binding of `id` in the document. -/
def getElementById (dom : DOM) (id : String) : Option Element :=
  match dom with
  | [] => none
  | (k, v) :: tl => if id = k then some v else getElementById tl id

/-- Replace the element stored under `id` (no-op when absent: ids are never
created by the script). -/
def setElem (dom : DOM) (id : String) (e : Element) : DOM :=
  match dom with
  | [] => []
  | (k, v) :: tl =>
      if k = id then (k, e) :: setElem tl id e else (k, v) :: setElem tl id e

/-- Page state: the document plus which box (container id, box index) holds
input focus, if any. -/
structure UI where
  dom : DOM
  focus : Option (String × Nat)
deriving DecidableEq

/-- `show(id)` (script.js 125-128): reset `style.display`; no-op when the id
does not resolve. -/
def show' (ui : UI) (id : String) : UI :=
  match getElementById ui.dom id with
  | none => ui
  | some el => { ui with dom := setElem ui.dom id { el with display := "" } }

/-- `hide(id)` (script.js 130-133). -/
def hide' (ui : UI) (id : String) : UI :=
  match getElementById ui.dom id with
  | none => ui
  | some el => { ui with dom := setElem ui.dom id { el with display := "none" } }

/-- `showError(id, msg)` (script.js 135-144): set the message, un-hide the
element and re-trigger its shake animation (net effect on the `animation`
style after the reflow trick is the empty string). -/
def showError (ui : UI) (id msg : String) : UI :=
  match getElementById ui.dom id with
  | none => ui
  | some el =>
      { ui with
        dom := setElem ui.dom id
                 { el with textContent := msg, display := "", animationStyle := "" } }

/-- `clearError(id)` (script.js 146-149). -/
def clearError (ui : UI) (id : String) : UI :=
  match getElementById ui.dom id with
  | none => ui
  | some el => { ui with dom := setElem ui.dom id { el with display := "none" } }

/-- `getOtpValue(containerId)` (script.js 102-108): concatenation of the box
values, `""` when the container is missing. -/
def getOtpValue (ui : UI) (containerId : String) : String :=
  match getElementById ui.dom containerId with
  | none => ""
  | some el => joinSep "" (el.boxes.map (fun b => b.value))

/-- `clearOtpBoxes(containerId)` (script.js 110-119): empty every box, drop
the filled flags and focus the first box when one exists. -/
def clearOtpBoxes (ui : UI) (containerId : String) : UI :=
  match getElementById ui.dom containerId with
  | none => ui
  | some el =>
      let dom := setElem ui.dom containerId
        { el with boxes := el.boxes.map (fun _ => emptyBox) }
      { dom := dom,
        focus := if el.boxes.isEmpty then ui.focus else some (containerId, 0) }

/-- `addHistoryRow(listId, guess, bulls, cows)` (script.js 377-395): no-op
on a missing list, otherwise remove the one-time placeholder and append one
row. -/
def addHistoryRow (ui : UI) (listId guess : String) (bulls cows : JSNum) : UI :=
  match getElementById ui.dom listId with
  | none => ui
  | some el =>
      { ui with
        dom := setElem ui.dom listId
                 { el with hasEmptyPlaceholder := false,
                           rows := el.rows ++
                             [{ guess := guess, bulls := bulls, cows := cows }] } }

/-- `setButtonLoading(btn, loading)` (script.js 499-508), with the button
addressed by id; only the `disabled` flag matters to the model. -/
def setButtonLoading (ui : UI) (id : String) (loading : Bool) : UI :=
  match getElementById ui.dom id with
  | none => ui
  | some el => { ui with dom := setElem ui.dom id { el with disabled := loading } }

/-- Unguarded property write `document.getElementById(id).textContent = txt`:
fails (`none`) when the element is missing, exactly as the script would
throw. -/
def setTextContentBang (ui : UI) (id txt : String) : Option UI :=
  match getElementById ui.dom id with
  | none => none
  | some el =>
      some { ui with dom := setElem ui.dom id { el with textContent := txt } }

/-- Parsed JSON body of the `/human-turn` response (§6 `SubmitHumanGuess`). -/
structure HumanTurnResponse where
  success : Bool
  error : Option String := none
  bulls : JSNum := JSNum.num 0
  cows : JSNum := JSNum.num 0
  won : Bool := false
  ai_secret : Option String := none
deriving Repr, DecidableEq

/-- Parsed JSON body of the `/ai-feedback` response (§6 `SubmitAiFeedback`). -/
structure AiFeedbackResponse where
  success : Bool
  error : Option String := none
  won : Bool := false
  human_secret : Option String := none
deriving Repr, DecidableEq

/-- A `setTimeout` callback recorded with its delay in milliseconds, not
executed (timers drive later phase transitions). -/
inductive Scheduled where
  | winnerHuman (ai_secret : Option String) (delayMs : Nat)
  | hideFlashThenAiTurn (delayMs : Nat)
  | winnerAi (human_secret : Option String) (delayMs : Nat)
  | backToHumanTurn (delayMs : Nat)
deriving Repr, DecidableEq

/-- Result of one submit-function invocation: the page state, the request
actually handed to `fetch` (`none` when the function returned before the
transport call), and the timers it armed. -/
structure HumanSubmitOutcome where
  ui : UI
  request : Option String
  scheduled : List Scheduled
deriving DecidableEq

/-- `showResultFlash(guess, bulls, cows)` (script.js 252-268): returns
before touching anything when `resultFlash` is missing; otherwise writes the
emoji/score/sub children unguarded (`none` models the throw on a missing
child). -/
def showResultFlash (ui : UI) (guess : String) (bulls cows : JSNum) : Option UI :=
  match getElementById ui.dom "resultFlash" with
  | none => some ui
  | some _ =>
      let emoji := if bulls = JSNum.num 4 then "🎉"
        else if JSNum.ge bulls (JSNum.num 2) then "🔥" else "🎯"
      match setTextContentBang ui "resultEmoji" emoji with
      | none => none
      | some ui =>
      match setTextContentBang ui "resultScore"
          ("🐂 " ++ bulls.toStr ++ " Bulls  ·  🐄 " ++ cows.toStr ++ " Cows") with
      | none => none
      | some ui =>
      match setTextContentBang ui "resultSub"
          ("Your guess: " ++ joinSep " " (guess.toList.map Char.toString)) with
      | none => none
      | some ui => some (show' ui "resultFlash")

/-- `submitHumanGuess()` (script.js 196-246).  `resp` is the parsed body of
the `/human-turn` round trip, `none` standing for a transport failure; the
`finally` reset of the submit button applies on every path past the guard. -/
def submitHumanGuess (ui : UI) (resp : Option HumanTurnResponse) :
    Option HumanSubmitOutcome :=
  let guess := getOtpValue ui "guessInputs"
  let ui := clearError ui "humanError"
  if guess.length ≠ 4 then
    some { ui := showError ui "humanError" "Fill in all 4 digits.",
           request := none, scheduled := [] }
  else
    let ui := setButtonLoading ui "btnHumanSubmit" true
    let finallyStep := fun (u : UI) => setButtonLoading u "btnHumanSubmit" false
    match resp with
    | none =>
        some { ui := finallyStep (showError ui "humanError" "Network error. Please try again."),
               request := some guess, scheduled := [] }
    | some data =>
        if !data.success then
          some { ui := finallyStep
                   (showError ui "humanError" ((data.error).getD "Invalid guess.")),
                 request := some guess, scheduled := [] }
        else
          let ui := addHistoryRow ui "humanHistory" guess data.bulls data.cows
          let ui := clearOtpBoxes ui "guessInputs"
          let ui := hide' ui "humanCard"
          match showResultFlash ui guess data.bulls data.cows with
          | none => none
          | some ui =>
              if data.won then
                some { ui := finallyStep ui, request := some guess,
                       scheduled := [Scheduled.winnerHuman data.ai_secret 2000] }
              else
                some { ui := finallyStep ui, request := some guess,
                       scheduled := [Scheduled.hideFlashThenAiTurn 2500] }

/-- State of the digit-by-digit AI guess reveal driven by the
`setInterval(…, 180)` loop of `displayAiGuess` (script.js 290-318):
the display's text, the captured counter `i`, whether the interval is still
armed, whether `aiCard` (holding the feedback controls) is visible, and the
elapsed time in milliseconds. -/
structure AiRevealState where
  content : String
  i : Nat
  intervalActive : Bool
  cardShown : Bool
  timeMs : Nat
deriving Repr, DecidableEq

/-- The text written by the interval tick whose captured counter is `i`
(script.js 301-302):
`digits.slice(0, i + 1).join(' ') + (i < 3 ? ' ' + '_ '.repeat(3 - i).trim() : '')`. -/
def tickContent (digits : List Char) (i : Nat) : String :=
  joinSep " " ((digits.take (i + 1)).map Char.toString) ++
    (if i < 3 then " " ++ jsTrim (strRepeat "_ " (3 - i)) else "")

/-- Synchronous part of `displayAiGuess(guess)` once the display element
resolves: write the placeholder text, arm the interval, and show `aiCard`
immediately (`show('aiCard')` runs before any tick has fired). -/
def displayAiGuess (guess : String) : AiRevealState :=
  { content := "_ _ _ _", i := 0, intervalActive := true, cardShown := true,
    timeMs := 0 }

/-- One firing of the 180 ms interval (script.js 300-306): write the next
partial reveal, bump the counter and clear the interval once
`i >= digits.length`. -/
def intervalTick (guess : String) (s : AiRevealState) : AiRevealState :=
  if s.intervalActive then
    let digits := guess.toList
    { content := tickContent digits s.i,
      i := s.i + 1,
      intervalActive := !(decide (s.i + 1 ≥ digits.length)),
      cardShown := s.cardShown,
      timeMs := s.timeMs + 180 }
  else s

/-- The reveal state after `k` interval firings. -/
def revealAfter (guess : String) : Nat → AiRevealState
  | 0 => displayAiGuess guess
  | k + 1 => intervalTick guess (revealAfter guess k)

/-- Unguarded property write `document.getElementById(id).value = v`. -/
def setValueBang (ui : UI) (id v : String) : Option UI :=
  match getElementById ui.dom id with
  | none => none
  | some el => some { ui with dom := setElem ui.dom id { el with value := v } }

/-- Result of one `submitAiFeedback` invocation: the request handed to
`fetch('/ai-feedback')` carries the two `parseInt` results (possibly
`NaN`). -/
structure AiSubmitOutcome where
  ui : UI
  request : Option (JSNum × JSNum)
  scheduled : List Scheduled
deriving DecidableEq

/-- `submitAiFeedback()` (script.js 320-371).  The script dereferences the
`aiBulls`/`aiCows` selects unguarded, so a missing select is a failure
(`none`); the guess recorded into the history is the current text of
`aiGuessDisplay` with whitespace removed (`'????'` when the display is
missing), not the value the service returned. -/
def submitAiFeedback (ui : UI) (resp : Option AiFeedbackResponse) :
    Option AiSubmitOutcome :=
  match getElementById ui.dom "aiBulls" with
  | none => none
  | some bullsEl =>
  match getElementById ui.dom "aiCows" with
  | none => none
  | some cowsEl =>
  let bulls := parseInt bullsEl.value
  let cows := parseInt cowsEl.value
  let ui := clearError ui "aiError"
  if JSNum.gt (bulls.add cows) (JSNum.num 4) then
    some { ui := showError ui "aiError" "Bulls + Cows cannot exceed 4.",
           request := none, scheduled := [] }
  else
    let ui := setButtonLoading ui "btnAiFeedback" true
    let finallyStep := fun (u : UI) => setButtonLoading u "btnAiFeedback" false
    match resp with
    | none =>
        some { ui := finallyStep (showError ui "aiError" "Network error. Please try again."),
               request := some (bulls, cows), scheduled := [] }
    | some data =>
        if !data.success then
          some { ui := finallyStep
                   (showError ui "aiError" ((data.error).getD "Invalid feedback.")),
                 request := some (bulls, cows), scheduled := [] }
        else
          let guess := stripWhitespace
            (match getElementById ui.dom "aiGuessDisplay" with
             | some d => d.textContent
             | none => "????")
          let ui := addHistoryRow ui "aiHistory" guess bulls cows
          match setValueBang ui "aiBulls" "0" with
          | none => none
          | some ui =>
          match setValueBang ui "aiCows" "0" with
          | none => none
          | some ui =>
            if data.won then
              some { ui := finallyStep (hide' ui "aiCard"),
                     request := some (bulls, cows),
                     scheduled := [Scheduled.winnerAi data.human_secret 400] }
            else
              some { ui := finallyStep (hide' ui "aiCard"),
                     request := some (bulls, cows),
                     scheduled := [Scheduled.backToHumanTurn 300] }

/-- `showWinner(winner, revealedSecret)` (script.js 401-419): no-op when the
overlay is missing; otherwise fill the overlay children (unguarded writes),
display it and — only for a human win — launch the confetti.  The returned
Bool records whether `launchConfetti()` was invoked. -/
def showWinner (ui : UI) (winner : String) (revealedSecret : Option String) :
    Option (UI × Bool) :=
  match getElementById ui.dom "winOverlay" with
  | none => some (ui, false)
  | some _ =>
      let isHuman := winner = "human"
      match setTextContentBang ui "winEmoji" (if isHuman then "🏆" else "🤖") with
      | none => none
      | some ui =>
      match setTextContentBang ui "winTitle"
          (if isHuman then "HUMAN WINS!" else "AI WINS!") with
      | none => none
      | some ui =>
      match setTextContentBang ui "winSub"
          (if isHuman then "You cracked the AI's secret number!"
           else "The AI cracked your secret number!") with
      | none => none
      | some ui =>
      match setTextContentBang ui "winSecret"
          (match revealedSecret with
           | some s => joinSep " " (s.toList.map Char.toString)
           | none => "") with
      | none => none
      | some ui =>
      match getElementById ui.dom "winOverlay" with
      | none => none
      | some ov =>
          some ({ ui with dom := setElem ui.dom "winOverlay" { ov with display := "flex" } },
                isHuman)

/-- One confetti particle (script.js 433-444).  IEEE doubles are rationals,
so the numeric state is modelled in `ℚ`; no claim depends on rounding. -/
structure Particle where
  x : ℚ
  y : ℚ
  w : ℚ
  h : ℚ
  colorIdx : Nat
  vx : ℚ
  vy : ℚ
  angle : ℚ
  spin : ℚ
  opacity : ℚ
deriving Repr, DecidableEq

/-- The IEEE-754 double value of `Math.PI`. -/
def jsMathPI : ℚ := 884279719003555 / 281474976710656

/-- `COLORS.length` (script.js 432). -/
def numConfettiColors : Nat := 6

/-- One element of the particle batch; `rand` is the stream of
`Math.random()` results, consumed ten per particle in source order. -/
def mkParticle (rand : Nat → ℚ) (width : ℚ) (i : Nat) : Particle :=
  { x := rand (10 * i) * width,
    y := -20 - rand (10 * i + 1) * 200,
    w := 6 + rand (10 * i + 2) * 8,
    h := 8 + rand (10 * i + 3) * 6,
    colorIdx := (⌊rand (10 * i + 4) * (numConfettiColors : ℚ)⌋).toNat,
    vx := (rand (10 * i + 5) - 1/2) * 3,
    vy := 2 + rand (10 * i + 6) * 4,
    angle := rand (10 * i + 7) * jsMathPI * 2,
    spin := (rand (10 * i + 8) - 1/2) * (15/100),
    opacity := 9/10 + rand (10 * i + 9) * (1/10) }

/-- `Array.from({ length: 140 }, () => ({ … }))` (script.js 433). -/
def spawnParticles (rand : Nat → ℚ) (width : ℚ) : List Particle :=
  (List.range 140).map (mkParticle rand width)

/-- State of the confetti animation: the particle batch, the rectangles
currently drawn on the canvas, the `done` flag and whether a
`requestAnimationFrame` callback is pending. -/
structure ConfettiState where
  particles : List Particle
  drawn : List Particle
  done : Bool
  frameScheduled : Bool
deriving DecidableEq

/-- State right after `launchConfetti` spawns the batch, before the first
synchronous `loop()` call. -/
def launchState (rand : Nat → ℚ) (width : ℚ) : ConfettiState :=
  { particles := spawnParticles rand width, drawn := [], done := false,
    frameScheduled := false }

/-- Physics advance for one particle still in bounds (script.js 457-460):
position by velocity, gravity on `vy`, rotation by spin. -/
def stepParticle (p : Particle) : Particle :=
  { p with x := p.x + p.vx, y := p.y + p.vy, angle := p.angle + p.spin,
           vy := p.vy + 1/20 }

/-- One invocation of `loop()` (script.js 449-472): clear the canvas, skip
particles past the bottom bound, advance and draw the rest, and request the
next frame only while some particle is alive and the hard stop has not
fired. -/
def loopStep (height : ℚ) (s : ConfettiState) : ConfettiState :=
  let inBounds := fun (p : Particle) => ¬ (p.y > height + 20)
  let alive := (s.particles.filter inBounds).length
  { particles := s.particles.map (fun p => if inBounds p then stepParticle p else p),
    drawn := (s.particles.filter inBounds).map stepParticle,
    done := s.done,
    frameScheduled := decide (alive > 0) && !s.done }

/-- The delay of the hard-stop timer (script.js 477-481). -/
def confettiStopDelayMs : Nat := 5000

/-- The hard-stop timer callback: set `done`, cancel the pending frame and
clear the canvas. -/
def timeoutStep (s : ConfettiState) : ConfettiState :=
  { s with done := true, frameScheduled := false, drawn := [] }

/-- Number of rows in a history list (`0` for a missing list). -/
def historyRowCount (ui : UI) (listId : String) : Nat :=
  match getElementById ui.dom listId with
  | none => 0
  | some el => el.rows.length

/-- The game-page document as the template renders it: every element the
script addresses, with empty inputs, default selects and empty history
lists. -/
def gamePage : DOM :=
  [("guessInputs", { boxes := List.replicate 4 emptyBox }),
   ("humanError", { display := "none" }),
   ("btnHumanSubmit", {}),
   ("humanCard", {}),
   ("resultFlash", { display := "none" }),
   ("resultEmoji", {}),
   ("resultScore", {}),
   ("resultSub", {}),
   ("humanHistory", { hasEmptyPlaceholder := true }),
   ("aiCard", { display := "none" }),
   ("aiGuessDisplay", {}),
   ("aiBulls", { value := "0" }),
   ("aiCows", { value := "0" }),
   ("aiError", { display := "none" }),
   ("btnAiFeedback", {}),
   ("aiHistory", { hasEmptyPlaceholder := true }),
   ("winOverlay", { display := "none" }),
   ("winEmoji", {}),
   ("winTitle", {}),
   ("winSub", {}),
   ("winSecret", {}),
   ("confettiCanvas", {})]

/-- The page state on load. -/
def gameUI : UI := { dom := gamePage, focus := none }

/-- Environment model: the user leaves the human guess inputs reading
`typed` (one filled box per typed digit); the group is only ever read back
through `getOtpValue`, which then returns exactly `typed`. -/
def typeGuess (ui : UI) (typed : String) : UI :=
  match getElementById ui.dom "guessInputs" with
  | none => ui
  | some el =>
      let newBoxes := typed.toList.map
        (fun c => ({ value := c.toString, filled := true } : OtpBox))
      { ui with
        dom := setElem ui.dom "guessInputs" { el with boxes := newBoxes } }

/-- One user-driven round-trip: a human guess submission (with the string
left in the inputs and the service's reply) or an AI feedback submission
(with the two select values and the service's reply). -/
inductive GameEvent where
  | humanTurn (typed : String) (resp : Option HumanTurnResponse)
  | aiTurn (bullsSel cowsSel : String) (resp : Option AiFeedbackResponse)

/-- Run one event against the page. -/
def stepEvent (ui : UI) : GameEvent → Option UI
  | GameEvent.humanTurn typed resp =>
      (submitHumanGuess (typeGuess ui typed) resp).map (fun out => out.ui)
  | GameEvent.aiTurn bv cv resp =>
      match setValueBang ui "aiBulls" bv with
      | none => none
      | some ui =>
      match setValueBang ui "aiCows" cv with
      | none => none
      | some ui => (submitAiFeedback ui resp).map (fun out => out.ui)

/-- Run a sequence of events. -/
def runTrace (ui : UI) : List GameEvent → Option UI
  | [] => some ui
  | e :: es =>
      match stepEvent ui e with
      | none => none
      | some ui' => runTrace ui' es

/-- A human event whose submission passes the length guard and is accepted
by the service (winning or not). -/
def isHumanSuccess : GameEvent → Bool
  | GameEvent.humanTurn typed (some r) => decide (typed.length = 4) && r.success
  | _ => false

/-- A human event accepted by the service with `won = false`. -/
def isHumanNonWinningSuccess : GameEvent → Bool
  | GameEvent.humanTurn typed (some r) =>
      decide (typed.length = 4) && r.success && !r.won
  | _ => false

/-- An AI event whose parsed feedback passes the `bulls + cows > 4` guard
and is accepted by the service (winning or not). -/
def isAiSuccess : GameEvent → Bool
  | GameEvent.aiTurn bv cv (some r) =>
      !(JSNum.gt ((parseInt bv).add (parseInt cv)) (JSNum.num 4)) && r.success
  | _ => false

/-- An AI event accepted by the service with `won = false`. -/
def isAiNonWinningSuccess : GameEvent → Bool
  | GameEvent.aiTurn bv cv (some r) =>
      !(JSNum.gt ((parseInt bv).add (parseInt cv)) (JSNum.num 4)) && r.success
        && !r.won
  | _ => false

/-- Count events satisfying `p`. -/
def countEvents (p : GameEvent → Bool) (es : List GameEvent) : Nat :=
  (es.filter p).length

/-- Shared shape of all guarded single-element updates: look the id up,
no-op when missing, otherwise store the transformed element. -/
def matchUpdate (ui : UI) (id : String) (g : Element → Element) : UI :=
  match getElementById ui.dom id with
  | none => ui
  | some el => { ui with dom := setElem ui.dom id (g el) }

/-- Row count of an optional element. -/
def rowLen : Option Element → Nat
  | none => 0
  | some el => el.rows.length

/-- The element ids the game page template provides. -/
def pageIds : List String :=
  ["guessInputs", "humanError", "btnHumanSubmit", "humanCard", "resultFlash",
   "resultEmoji", "resultScore", "resultSub", "humanHistory", "aiCard",
   "aiGuessDisplay", "aiBulls", "aiCows", "aiError", "btnAiFeedback",
   "aiHistory", "winOverlay", "winEmoji", "winTitle", "winSub", "winSecret",
   "confettiCanvas"]

/-- A page state is well-formed when every templated id resolves. -/
def wf (ui : UI) : Prop :=
  ∀ id ∈ pageIds, (getElementById ui.dom id).isSome = true

/-- The `value` property of the element under `id` (`""` when missing);
used to state properties about the feedback selects. -/
def selectValue (ui : UI) (id : String) : String :=
  match getElementById ui.dom id with
  | none => ""
  | some el => el.value

/-- Game page with the feedback selects set to bulls 3 / cows 2 (a state
the user can reach through the selects). -/
def aiSumTooBigUI : UI :=
  { dom := setElem (setElem gamePage "aiBulls" { value := "3" })
      "aiCows" { value := "2" },
    focus := none }

/-- Game page where the bulls select carries a value that does not parse as
an integer. -/
def aiNanUI : UI :=
  { dom := setElem gamePage "aiBulls" { value := "" }, focus := none }

/-- Game page captured mid-reveal: the AI guess display still shows two
underscore placeholders of the guess `"1234"`. -/
def partialRevealUI : UI :=
  { dom := setElem gamePage "aiGuessDisplay"
      { textContent := (revealAfter "1234" 2).content },
    focus := none }

/-- A single human submission that the service accepts with `won = true`. -/
def winningHumanTrace : List GameEvent :=
  [GameEvent.humanTurn "1234"
    (some { success := true, bulls := JSNum.num 4, cows := JSNum.num 0,
            won := true, ai_secret := some "5678" })]

/-! ### Basic lemmas about element lookup and update -/

lemma getElementById_setElem (dom : DOM) (id : String) (e : Element) (id' : String) :
    getElementById (setElem dom id e) id' =
      if id' = id then (getElementById dom id').map (fun _ => e)
      else getElementById dom id' := by
  induction dom with
  | nil =>
      simp only [setElem, getElementById]
      split <;> rfl
  | cons p tl ih =>
      obtain ⟨k, v⟩ := p
      by_cases hk : k = id
      · subst hk
        by_cases h' : id' = k
        · subst h'; simp [getElementById, setElem, ih]
        · simp [getElementById, setElem, h', ih]
      · by_cases h' : id' = k
        · subst h'
          simp [getElementById, setElem, hk]
        · simp [getElementById, setElem, hk, h', ih]

lemma dom_matchUpdate (ui : UI) (id : String) (g : Element → Element)
    (id' : String) :
    getElementById (matchUpdate ui id g).dom id' =
      if id' = id then (getElementById ui.dom id').map g
      else getElementById ui.dom id' := by
  unfold matchUpdate
  cases h : getElementById ui.dom id with
  | none =>
      by_cases h' : id' = id
      · subst h'; simp [h]
      · simp [h']
  | some el =>
      by_cases h' : id' = id
      · subst h'; simp [getElementById_setElem, h]
      · simp [getElementById_setElem, h']

lemma isSome_matchUpdate (ui : UI) (id : String) (g : Element → Element)
    (id' : String) :
    (getElementById (matchUpdate ui id g).dom id').isSome =
      (getElementById ui.dom id').isSome := by
  rw [dom_matchUpdate]
  split
  · next heq => subst heq; cases getElementById ui.dom id' <;> rfl
  · rfl

lemma historyRowCount_eq_rowLen (ui : UI) (lid : String) :
    historyRowCount ui lid = rowLen (getElementById ui.dom lid) := by
  unfold historyRowCount rowLen
  cases getElementById ui.dom lid <;> rfl

lemma rowCount_matchUpdate (ui : UI) (id : String) (g : Element → Element)
    (hg : ∀ el, (g el).rows = el.rows) (lid : String) :
    historyRowCount (matchUpdate ui id g) lid = historyRowCount ui lid := by
  rw [historyRowCount_eq_rowLen, historyRowCount_eq_rowLen, dom_matchUpdate]
  split
  · next heq => subst heq; cases getElementById ui.dom lid <;> simp [rowLen, hg]
  · rfl

lemma show'_eq_matchUpdate (ui : UI) (id : String) :
    show' ui id = matchUpdate ui id (fun el => { el with display := "" }) := rfl

lemma hide'_eq_matchUpdate (ui : UI) (id : String) :
    hide' ui id = matchUpdate ui id (fun el => { el with display := "none" }) := rfl

lemma showError_eq_matchUpdate (ui : UI) (id msg : String) :
    showError ui id msg = matchUpdate ui id
      (fun el => { el with textContent := msg, display := "", animationStyle := "" }) := rfl

lemma clearError_eq_matchUpdate (ui : UI) (id : String) :
    clearError ui id = matchUpdate ui id (fun el => { el with display := "none" }) := rfl

lemma setButtonLoading_eq_matchUpdate (ui : UI) (id : String) (loading : Bool) :
    setButtonLoading ui id loading =
      matchUpdate ui id (fun el => { el with disabled := loading }) := rfl

lemma addHistoryRow_eq_matchUpdate (ui : UI) (listId guess : String)
    (bulls cows : JSNum) :
    addHistoryRow ui listId guess bulls cows = matchUpdate ui listId
      (fun el => { el with hasEmptyPlaceholder := false,
                           rows := el.rows ++
                             [{ guess := guess, bulls := bulls, cows := cows }] }) := rfl

lemma typeGuess_eq_matchUpdate (ui : UI) (typed : String) :
    typeGuess ui typed = matchUpdate ui "guessInputs"
      (fun el => { el with boxes := typed.toList.map
                              (fun c => { value := c.toString, filled := true }) }) := rfl

lemma setTextContentBang_eq (ui : UI) (id txt : String) (el : Element)
    (h : getElementById ui.dom id = some el) :
    setTextContentBang ui id txt =
      some (matchUpdate ui id (fun e => { e with textContent := txt })) := by
  unfold setTextContentBang matchUpdate
  rw [h]

lemma setValueBang_eq (ui : UI) (id v : String) (el : Element)
    (h : getElementById ui.dom id = some el) :
    setValueBang ui id v =
      some (matchUpdate ui id (fun e => { e with value := v })) := by
  unfold setValueBang matchUpdate
  rw [h]

lemma wf_matchUpdate {ui : UI} (id : String) (g : Element → Element)
    (h : wf ui) : wf (matchUpdate ui id g) := by
  intro i hi
  rw [isSome_matchUpdate]
  exact h i hi

lemma wf_of_dom_eq {ui ui' : UI} (hdom : ui'.dom = ui.dom) (h : wf ui) :
    wf ui' := by
  intro i hi
  rw [hdom]
  exact h i hi

lemma historyRowCount_of_dom_eq {ui ui' : UI} (hdom : ui'.dom = ui.dom)
    (lid : String) : historyRowCount ui' lid = historyRowCount ui lid := by
  rw [historyRowCount_eq_rowLen, historyRowCount_eq_rowLen, hdom]

lemma clearOtpBoxes_dom_eq (ui : UI) (id : String) :
    (clearOtpBoxes ui id).dom =
      (matchUpdate ui id
        (fun el => { el with boxes := el.boxes.map (fun _ => emptyBox) })).dom := by
  unfold clearOtpBoxes matchUpdate
  cases getElementById ui.dom id <;> rfl

lemma rows_preserved_display (d : String) :
    ∀ el : Element, (({ el with display := d } : Element)).rows = el.rows :=
  fun _ => rfl

lemma showResultFlash_spec (ui : UI) (g : String) (b c : JSNum)
    (h2 : (getElementById ui.dom "resultEmoji").isSome = true)
    (h3 : (getElementById ui.dom "resultScore").isSome = true)
    (h4 : (getElementById ui.dom "resultSub").isSome = true) :
    ∃ ui', showResultFlash ui g b c = some ui' ∧
      (∀ id', (getElementById ui'.dom id').isSome =
        (getElementById ui.dom id').isSome) ∧
      (∀ lid, historyRowCount ui' lid = historyRowCount ui lid) := by
  unfold showResultFlash
  cases hf : getElementById ui.dom "resultFlash" with
  | none => exact ⟨ui, rfl, fun _ => rfl, fun _ => rfl⟩
  | some fl =>
      dsimp only
      obtain ⟨e1, he1⟩ := Option.isSome_iff_exists.mp h2
      rw [setTextContentBang_eq ui "resultEmoji" _ e1 he1]
      set u1 := matchUpdate ui "resultEmoji"
        (fun e => { e with textContent := (if b = JSNum.num 4 then "🎉"
          else if JSNum.ge b (JSNum.num 2) then "🔥" else "🎯") }) with hu1
      dsimp only
      have h3' : (getElementById u1.dom "resultScore").isSome = true := by
        rw [hu1, isSome_matchUpdate]; exact h3
      obtain ⟨e2, he2⟩ := Option.isSome_iff_exists.mp h3'
      rw [setTextContentBang_eq u1 "resultScore" _ e2 he2]
      set u2 := matchUpdate u1 "resultScore"
        (fun e => { e with textContent :=
          "🐂 " ++ b.toStr ++ " Bulls  ·  🐄 " ++ c.toStr ++ " Cows" }) with hu2
      dsimp only
      have h4' : (getElementById u2.dom "resultSub").isSome = true := by
        rw [hu2, isSome_matchUpdate, hu1, isSome_matchUpdate]; exact h4
      obtain ⟨e3, he3⟩ := Option.isSome_iff_exists.mp h4'
      rw [setTextContentBang_eq u2 "resultSub" _ e3 he3]
      dsimp only
      set u3 := matchUpdate u2 "resultSub"
        (fun e => { e with textContent :=
          "Your guess: " ++ joinSep " " (g.toList.map Char.toString) }) with hu3
      refine ⟨show' u3 "resultFlash", rfl, ?_, ?_⟩
      · intro id'
        rw [show'_eq_matchUpdate, isSome_matchUpdate, hu3, isSome_matchUpdate,
          hu2, isSome_matchUpdate, hu1, isSome_matchUpdate]
      · intro lid
        rw [show'_eq_matchUpdate, hu3, hu2, hu1]
        simp [rowCount_matchUpdate]

lemma data_char_toString (c : Char) : c.toString.data = [c] := rfl

lemma joinSep_empty_map_toString (l : List Char) :
    joinSep "" (l.map Char.toString) = String.mk l := by
  induction l with
  | nil => rfl
  | cons c tl ih =>
      cases tl with
      | nil => rfl
      | cons d tl' =>
          apply String.ext
          have ihd := congrArg String.data ih
          simp only [List.map_cons, joinSep, String.data_append,
            data_char_toString] at *
          rw [ihd]
          rfl

lemma getOtpValue_typeGuess (ui : UI) (typed : String)
    (h : (getElementById ui.dom "guessInputs").isSome = true) :
    getOtpValue (typeGuess ui typed) "guessInputs" = typed := by
  obtain ⟨el, hel⟩ := Option.isSome_iff_exists.mp h
  have hl : getElementById (typeGuess ui typed).dom "guessInputs" =
      some { el with boxes := typed.toList.map
                       (fun c => { value := c.toString, filled := true }) } := by
    rw [typeGuess_eq_matchUpdate, dom_matchUpdate]
    simp [hel]
  unfold getOtpValue
  rw [hl]
  dsimp only
  rw [List.map_map]
  have hcomp : ((fun b : OtpBox => b.value) ∘ fun c : Char =>
      ({ value := c.toString, filled := true } : OtpBox)) = Char.toString := rfl
  rw [hcomp, joinSep_empty_map_toString]
  cases typed
  rfl

lemma rowCount_addHistoryRow_self (ui : UI) (lid guess : String) (b c : JSNum)
    (h : (getElementById ui.dom lid).isSome = true) :
    historyRowCount (addHistoryRow ui lid guess b c) lid =
      historyRowCount ui lid + 1 := by
  obtain ⟨el, hel⟩ := Option.isSome_iff_exists.mp h
  rw [addHistoryRow_eq_matchUpdate, historyRowCount_eq_rowLen,
    historyRowCount_eq_rowLen, dom_matchUpdate]
  simp [hel, rowLen]

lemma rowCount_addHistoryRow_other (ui : UI) (lid lid' guess : String)
    (b c : JSNum) (h : lid' ≠ lid) :
    historyRowCount (addHistoryRow ui lid guess b c) lid' =
      historyRowCount ui lid' := by
  rw [addHistoryRow_eq_matchUpdate, historyRowCount_eq_rowLen,
    historyRowCount_eq_rowLen, dom_matchUpdate, if_neg h]

lemma isSome_show' (ui : UI) (id id' : String) :
    (getElementById (show' ui id).dom id').isSome =
      (getElementById ui.dom id').isSome := by
  rw [show'_eq_matchUpdate]; exact isSome_matchUpdate ui id _ id'

lemma isSome_hide' (ui : UI) (id id' : String) :
    (getElementById (hide' ui id).dom id').isSome =
      (getElementById ui.dom id').isSome := by
  rw [hide'_eq_matchUpdate]; exact isSome_matchUpdate ui id _ id'

lemma isSome_showError (ui : UI) (id msg id' : String) :
    (getElementById (showError ui id msg).dom id').isSome =
      (getElementById ui.dom id').isSome := by
  rw [showError_eq_matchUpdate]; exact isSome_matchUpdate ui id _ id'

lemma isSome_clearError (ui : UI) (id id' : String) :
    (getElementById (clearError ui id).dom id').isSome =
      (getElementById ui.dom id').isSome := by
  rw [clearError_eq_matchUpdate]; exact isSome_matchUpdate ui id _ id'

lemma isSome_setButtonLoading (ui : UI) (id : String) (b : Bool) (id' : String) :
    (getElementById (setButtonLoading ui id b).dom id').isSome =
      (getElementById ui.dom id').isSome := by
  rw [setButtonLoading_eq_matchUpdate]; exact isSome_matchUpdate ui id _ id'

lemma isSome_addHistoryRow (ui : UI) (lid g : String) (b c : JSNum)
    (id' : String) :
    (getElementById (addHistoryRow ui lid g b c).dom id').isSome =
      (getElementById ui.dom id').isSome := by
  rw [addHistoryRow_eq_matchUpdate]; exact isSome_matchUpdate ui lid _ id'

lemma isSome_typeGuess (ui : UI) (typed : String) (id' : String) :
    (getElementById (typeGuess ui typed).dom id').isSome =
      (getElementById ui.dom id').isSome := by
  rw [typeGuess_eq_matchUpdate]; exact isSome_matchUpdate ui _ _ id'

lemma isSome_clearOtpBoxes (ui : UI) (id id' : String) :
    (getElementById (clearOtpBoxes ui id).dom id').isSome =
      (getElementById ui.dom id').isSome := by
  rw [clearOtpBoxes_dom_eq]; exact isSome_matchUpdate ui id _ id'

lemma rowCount_show' (ui : UI) (id lid : String) :
    historyRowCount (show' ui id) lid = historyRowCount ui lid := by
  rw [show'_eq_matchUpdate]
  apply rowCount_matchUpdate
  intro el
  rfl

lemma rowCount_hide' (ui : UI) (id lid : String) :
    historyRowCount (hide' ui id) lid = historyRowCount ui lid := by
  rw [hide'_eq_matchUpdate]
  apply rowCount_matchUpdate
  intro el
  rfl

lemma rowCount_showError (ui : UI) (id msg lid : String) :
    historyRowCount (showError ui id msg) lid = historyRowCount ui lid := by
  rw [showError_eq_matchUpdate]
  apply rowCount_matchUpdate
  intro el
  rfl

lemma rowCount_clearError (ui : UI) (id lid : String) :
    historyRowCount (clearError ui id) lid = historyRowCount ui lid := by
  rw [clearError_eq_matchUpdate]
  apply rowCount_matchUpdate
  intro el
  rfl

lemma rowCount_setButtonLoading (ui : UI) (id : String) (b : Bool) (lid : String) :
    historyRowCount (setButtonLoading ui id b) lid = historyRowCount ui lid := by
  rw [setButtonLoading_eq_matchUpdate]
  apply rowCount_matchUpdate
  intro el
  rfl

lemma rowCount_typeGuess (ui : UI) (typed : String) (lid : String) :
    historyRowCount (typeGuess ui typed) lid = historyRowCount ui lid := by
  rw [typeGuess_eq_matchUpdate]
  apply rowCount_matchUpdate
  intro el
  rfl

lemma rowCount_clearOtpBoxes (ui : UI) (id lid : String) :
    historyRowCount (clearOtpBoxes ui id) lid = historyRowCount ui lid := by
  rw [historyRowCount_eq_rowLen, clearOtpBoxes_dom_eq,
    ← historyRowCount_eq_rowLen]
  apply rowCount_matchUpdate
  intro el
  rfl

lemma wf_show' {ui : UI} (id : String) (h : wf ui) : wf (show' ui id) :=
  fun i hi => (isSome_show' ui id i).trans (h i hi)

lemma wf_hide' {ui : UI} (id : String) (h : wf ui) : wf (hide' ui id) :=
  fun i hi => (isSome_hide' ui id i).trans (h i hi)

lemma wf_showError {ui : UI} (id msg : String) (h : wf ui) :
    wf (showError ui id msg) :=
  fun i hi => (isSome_showError ui id msg i).trans (h i hi)

lemma wf_clearError {ui : UI} (id : String) (h : wf ui) : wf (clearError ui id) :=
  fun i hi => (isSome_clearError ui id i).trans (h i hi)

lemma wf_setButtonLoading {ui : UI} (id : String) (b : Bool) (h : wf ui) :
    wf (setButtonLoading ui id b) :=
  fun i hi => (isSome_setButtonLoading ui id b i).trans (h i hi)

lemma wf_addHistoryRow {ui : UI} (lid g : String) (b c : JSNum) (h : wf ui) :
    wf (addHistoryRow ui lid g b c) :=
  fun i hi => (isSome_addHistoryRow ui lid g b c i).trans (h i hi)

lemma wf_typeGuess {ui : UI} (typed : String) (h : wf ui) :
    wf (typeGuess ui typed) :=
  fun i hi => (isSome_typeGuess ui typed i).trans (h i hi)

lemma wf_clearOtpBoxes {ui : UI} (id : String) (h : wf ui) :
    wf (clearOtpBoxes ui id) :=
  fun i hi => (isSome_clearOtpBoxes ui id i).trans (h i hi)

lemma submitHumanGuess_spec (ui : UI) (resp : Option HumanTurnResponse)
    (h : wf ui) :
    ∃ out, submitHumanGuess ui resp = some out ∧ wf out.ui ∧
      historyRowCount out.ui "humanHistory" =
        historyRowCount ui "humanHistory" +
          (if (getOtpValue ui "guessInputs").length = 4 ∧
              (∃ r, resp = some r ∧ r.success = true) then 1 else 0) ∧
      historyRowCount out.ui "aiHistory" = historyRowCount ui "aiHistory" := by
  unfold submitHumanGuess
  dsimp only
  by_cases hG : (getOtpValue ui "guessInputs").length = 4
  · rw [if_neg (not_not_intro hG)]
    cases resp with
    | none =>
        dsimp only
        refine ⟨_, rfl, ?_, ?_, ?_⟩
        · exact wf_setButtonLoading _ _ (wf_showError _ _
            (wf_setButtonLoading _ _ (wf_clearError _ h)))
        · simp [rowCount_setButtonLoading, rowCount_showError,
            rowCount_clearError]
        · simp [rowCount_setButtonLoading, rowCount_showError,
            rowCount_clearError]
    | some data =>
        dsimp only
        by_cases hs : data.success = true
        · rw [if_neg (by simp [hs])]
          set u4 := hide'
            (clearOtpBoxes
              (addHistoryRow
                (setButtonLoading (clearError ui "humanError") "btnHumanSubmit" true)
                "humanHistory" (getOtpValue ui "guessInputs") data.bulls data.cows)
              "guessInputs")
            "humanCard" with hu4
          have hwf4 : wf u4 := by
            rw [hu4]
            exact wf_hide' _ (wf_clearOtpBoxes _ (wf_addHistoryRow _ _ _ _
              (wf_setButtonLoading _ _ (wf_clearError _ h))))
          obtain ⟨u5, hu5, hu5some, hu5rows⟩ :=
            showResultFlash_spec u4 (getOtpValue ui "guessInputs")
              data.bulls data.cows
              (hwf4 _ (by simp [pageIds])) (hwf4 _ (by simp [pageIds]))
              (hwf4 _ (by simp [pageIds]))
          rw [hu5]
          dsimp only
          have hwf5 : wf u5 := fun i hi => (hu5some i).trans (hwf4 i hi)
          have hsomeHH : (getElementById (setButtonLoading
              (clearError ui "humanError") "btnHumanSubmit" true).dom
              "humanHistory").isSome = true := by
            rw [isSome_setButtonLoading, isSome_clearError]
            exact h _ (by simp [pageIds])
          have hrowsHuman : historyRowCount u5 "humanHistory" =
              historyRowCount ui "humanHistory" + 1 := by
            rw [hu5rows, hu4, rowCount_hide', rowCount_clearOtpBoxes,
              rowCount_addHistoryRow_self _ _ _ _ _ hsomeHH,
              rowCount_setButtonLoading, rowCount_clearError]
          have hrowsAi : historyRowCount u5 "aiHistory" =
              historyRowCount ui "aiHistory" := by
            rw [hu5rows, hu4, rowCount_hide', rowCount_clearOtpBoxes,
              rowCount_addHistoryRow_other _ _ _ _ _ _ (by decide),
              rowCount_setButtonLoading, rowCount_clearError]
          by_cases hdw : data.won = true
          · rw [if_pos hdw]
            refine ⟨_, rfl, ?_, ?_, ?_⟩
            · exact wf_setButtonLoading _ _ hwf5
            · rw [rowCount_setButtonLoading, hrowsHuman,
                if_pos ⟨hG, ⟨data, rfl, hs⟩⟩]
            · rw [rowCount_setButtonLoading, hrowsAi]
          · rw [if_neg hdw]
            refine ⟨_, rfl, ?_, ?_, ?_⟩
            · exact wf_setButtonLoading _ _ hwf5
            · rw [rowCount_setButtonLoading, hrowsHuman,
                if_pos ⟨hG, ⟨data, rfl, hs⟩⟩]
            · rw [rowCount_setButtonLoading, hrowsAi]
        · rw [if_pos (by simp [hs])]
          refine ⟨_, rfl, ?_, ?_, ?_⟩
          · exact wf_setButtonLoading _ _ (wf_showError _ _
              (wf_setButtonLoading _ _ (wf_clearError _ h)))
          · rw [rowCount_setButtonLoading, rowCount_showError,
              rowCount_setButtonLoading, rowCount_clearError,
              if_neg (by rintro ⟨-, r, hr, hrs⟩; cases hr; exact hs hrs)]
            omega
          · rw [rowCount_setButtonLoading, rowCount_showError,
              rowCount_setButtonLoading, rowCount_clearError]
  · rw [if_pos hG]
    refine ⟨_, rfl, ?_, ?_, ?_⟩
    · exact wf_showError _ _ (wf_clearError _ h)
    · rw [rowCount_showError, rowCount_clearError,
        if_neg (by rintro ⟨h1, -⟩; exact hG h1)]
      omega
    · rw [rowCount_showError, rowCount_clearError]

lemma setValueBang_isSome (ui : UI) (id v : String)
    (h : (getElementById ui.dom id).isSome = true) :
    setValueBang ui id v =
      some (matchUpdate ui id (fun e => { e with value := v })) := by
  obtain ⟨el, hel⟩ := Option.isSome_iff_exists.mp h
  exact setValueBang_eq ui id v el hel

lemma rowCount_valueUpdate (ui : UI) (id v lid : String) :
    historyRowCount (matchUpdate ui id (fun e => { e with value := v })) lid =
      historyRowCount ui lid := by
  apply rowCount_matchUpdate
  intro el
  rfl

lemma submitAiFeedback_spec (ui : UI) (resp : Option AiFeedbackResponse)
    (h : wf ui) :
    ∃ out, submitAiFeedback ui resp = some out ∧ wf out.ui ∧
      historyRowCount out.ui "aiHistory" =
        historyRowCount ui "aiHistory" +
          (if JSNum.gt ((parseInt (selectValue ui "aiBulls")).add
                (parseInt (selectValue ui "aiCows"))) (JSNum.num 4) = false ∧
              (∃ r, resp = some r ∧ r.success = true) then 1 else 0) ∧
      historyRowCount out.ui "humanHistory" =
        historyRowCount ui "humanHistory" := by
  obtain ⟨elB, helB⟩ := Option.isSome_iff_exists.mp (h _ (by simp [pageIds]) :
    (getElementById ui.dom "aiBulls").isSome = true)
  obtain ⟨elC, helC⟩ := Option.isSome_iff_exists.mp (h _ (by simp [pageIds]) :
    (getElementById ui.dom "aiCows").isSome = true)
  have hselB : selectValue ui "aiBulls" = elB.value := by
    unfold selectValue; rw [helB]
  have hselC : selectValue ui "aiCows" = elC.value := by
    unfold selectValue; rw [helC]
  unfold submitAiFeedback
  rw [helB, helC]
  dsimp only
  rw [hselB, hselC]
  by_cases hgt : JSNum.gt ((parseInt elB.value).add (parseInt elC.value))
      (JSNum.num 4) = true
  · rw [if_pos hgt]
    refine ⟨_, rfl, ?_, ?_, ?_⟩
    · exact wf_showError _ _ (wf_clearError _ h)
    · rw [rowCount_showError, rowCount_clearError,
        if_neg (by rintro ⟨h1, -⟩; rw [hgt] at h1; cases h1)]
      omega
    · rw [rowCount_showError, rowCount_clearError]
  · rw [if_neg hgt]
    have hgtf : JSNum.gt ((parseInt elB.value).add (parseInt elC.value))
        (JSNum.num 4) = false := by
      cases hx : JSNum.gt ((parseInt elB.value).add (parseInt elC.value))
        (JSNum.num 4)
      · rfl
      · exact absurd hx hgt
    cases resp with
    | none =>
        dsimp only
        refine ⟨_, rfl, ?_, ?_, ?_⟩
        · exact wf_setButtonLoading _ _ (wf_showError _ _
            (wf_setButtonLoading _ _ (wf_clearError _ h)))
        · rw [rowCount_setButtonLoading, rowCount_showError,
            rowCount_setButtonLoading, rowCount_clearError,
            if_neg (by rintro ⟨-, r, hr, -⟩; cases hr)]
          omega
        · rw [rowCount_setButtonLoading, rowCount_showError,
            rowCount_setButtonLoading, rowCount_clearError]
    | some data =>
        dsimp only
        by_cases hs : data.success = true
        · rw [if_neg (by simp [hs])]
          have hsomeAH : (getElementById (setButtonLoading
              (clearError ui "aiError") "btnAiFeedback" true).dom
              "aiHistory").isSome = true := by
            rw [isSome_setButtonLoading, isSome_clearError]
            exact h _ (by simp [pageIds])
          rw [setValueBang_isSome _ _ _ (by
            rw [isSome_addHistoryRow, isSome_setButtonLoading,
              isSome_clearError]
            exact h _ (by simp [pageIds]))]
          dsimp only
          rw [setValueBang_isSome _ _ _ (by
            rw [isSome_matchUpdate, isSome_addHistoryRow,
              isSome_setButtonLoading, isSome_clearError]
            exact h _ (by simp [pageIds]))]
          dsimp only
          by_cases hdw : data.won = true
          · rw [if_pos hdw]
            refine ⟨_, rfl, ?_, ?_, ?_⟩
            · exact wf_setButtonLoading _ _ (wf_hide' _
                (wf_matchUpdate _ _ (wf_matchUpdate _ _
                  (wf_addHistoryRow _ _ _ _
                    (wf_setButtonLoading _ _ (wf_clearError _ h))))))
            · rw [rowCount_setButtonLoading, rowCount_hide']
              rw [rowCount_valueUpdate, rowCount_valueUpdate,
                rowCount_addHistoryRow_self _ _ _ _ _ hsomeAH,
                rowCount_setButtonLoading, rowCount_clearError,
                if_pos ⟨hgtf, ⟨data, rfl, hs⟩⟩]
            · rw [rowCount_setButtonLoading, rowCount_hide']
              rw [rowCount_valueUpdate, rowCount_valueUpdate,
                rowCount_addHistoryRow_other _ _ _ _ _ _ (by decide),
                rowCount_setButtonLoading, rowCount_clearError]
          · rw [if_neg hdw]
            refine ⟨_, rfl, ?_, ?_, ?_⟩
            · exact wf_setButtonLoading _ _ (wf_hide' _
                (wf_matchUpdate _ _ (wf_matchUpdate _ _
                  (wf_addHistoryRow _ _ _ _
                    (wf_setButtonLoading _ _ (wf_clearError _ h))))))
            · rw [rowCount_setButtonLoading, rowCount_hide']
              rw [rowCount_valueUpdate, rowCount_valueUpdate,
                rowCount_addHistoryRow_self _ _ _ _ _ hsomeAH,
                rowCount_setButtonLoading, rowCount_clearError,
                if_pos ⟨hgtf, ⟨data, rfl, hs⟩⟩]
            · rw [rowCount_setButtonLoading, rowCount_hide']
              rw [rowCount_valueUpdate, rowCount_valueUpdate,
                rowCount_addHistoryRow_other _ _ _ _ _ _ (by decide),
                rowCount_setButtonLoading, rowCount_clearError]
        · rw [if_pos (by simp [hs])]
          refine ⟨_, rfl, ?_, ?_, ?_⟩
          · exact wf_setButtonLoading _ _ (wf_showError _ _
              (wf_setButtonLoading _ _ (wf_clearError _ h)))
          · rw [rowCount_setButtonLoading, rowCount_showError,
              rowCount_setButtonLoading, rowCount_clearError,
              if_neg (by rintro ⟨-, r, hr, hrs⟩; cases hr; exact hs hrs)]
            omega
          · rw [rowCount_setButtonLoading, rowCount_showError,
              rowCount_setButtonLoading, rowCount_clearError]

lemma isHumanSuccess_iff (typed : String) (resp : Option HumanTurnResponse) :
    isHumanSuccess (GameEvent.humanTurn typed resp) = true ↔
      (typed.length = 4 ∧ ∃ r, resp = some r ∧ r.success = true) := by
  cases resp with
  | none => simp [isHumanSuccess]
  | some r => simp [isHumanSuccess]

lemma isAiSuccess_iff (bv cv : String) (resp : Option AiFeedbackResponse) :
    isAiSuccess (GameEvent.aiTurn bv cv resp) = true ↔
      (JSNum.gt ((parseInt bv).add (parseInt cv)) (JSNum.num 4) = false ∧
        ∃ r, resp = some r ∧ r.success = true) := by
  cases resp with
  | none => simp [isAiSuccess]
  | some r =>
      simp only [isAiSuccess, Bool.and_eq_true, Bool.not_eq_true']
      constructor
      · rintro ⟨h1, h2⟩; exact ⟨h1, r, rfl, h2⟩
      · rintro ⟨h1, r', hr', h2⟩; cases hr'; exact ⟨h1, h2⟩

lemma stepEvent_spec (ui : UI) (e : GameEvent) (h : wf ui) :
    ∃ ui', stepEvent ui e = some ui' ∧ wf ui' ∧
      historyRowCount ui' "humanHistory" =
        historyRowCount ui "humanHistory" +
          (if isHumanSuccess e then 1 else 0) ∧
      historyRowCount ui' "aiHistory" =
        historyRowCount ui "aiHistory" +
          (if isAiSuccess e then 1 else 0) := by
  cases e with
  | humanTurn typed resp =>
      obtain ⟨out, hout, hwf, hrh, hra⟩ :=
        submitHumanGuess_spec (typeGuess ui typed) resp (wf_typeGuess _ h)
      refine ⟨out.ui, ?_, hwf, ?_, ?_⟩
      · unfold stepEvent
        dsimp only
        rw [hout]
        rfl
      · rw [hrh, rowCount_typeGuess,
          getOtpValue_typeGuess _ _ (h _ (by simp [pageIds]))]
        by_cases hc : typed.length = 4 ∧ ∃ r, resp = some r ∧ r.success = true
        · rw [if_pos hc, if_pos ((isHumanSuccess_iff typed resp).mpr hc)]
        · rw [if_neg hc,
            if_neg (fun hx => hc ((isHumanSuccess_iff typed resp).mp hx))]
      · rw [hra, rowCount_typeGuess, if_neg (by simp [isAiSuccess])]
        omega
  | aiTurn bv cv resp =>
      obtain ⟨elB, helB⟩ := Option.isSome_iff_exists.mp (h _ (by simp [pageIds]) :
        (getElementById ui.dom "aiBulls").isSome = true)
      obtain ⟨elC, helC⟩ := Option.isSome_iff_exists.mp (h _ (by simp [pageIds]) :
        (getElementById ui.dom "aiCows").isSome = true)
      set u1 := matchUpdate ui "aiBulls" (fun e => { e with value := bv }) with hu1
      set u2 := matchUpdate u1 "aiCows" (fun e => { e with value := cv }) with hu2
      have hwf2 : wf u2 := wf_matchUpdate _ _ (wf_matchUpdate _ _ h)
      have hselB : selectValue u2 "aiBulls" = bv := by
        unfold selectValue
        rw [hu2, dom_matchUpdate, if_neg (by decide), hu1, dom_matchUpdate,
          if_pos rfl, helB]
        rfl
      have hselC : selectValue u2 "aiCows" = cv := by
        unfold selectValue
        rw [hu2, dom_matchUpdate, if_pos rfl, hu1, dom_matchUpdate,
          if_neg (by decide), helC]
        rfl
      obtain ⟨out, hout, hwf, hra, hrh⟩ := submitAiFeedback_spec u2 resp hwf2
      refine ⟨out.ui, ?_, hwf, ?_, ?_⟩
      · unfold stepEvent
        dsimp only
        rw [setValueBang_isSome ui "aiBulls" bv (h _ (by simp [pageIds]))]
        dsimp only
        rw [← hu1]
        rw [setValueBang_isSome u1 "aiCows" cv (by
          rw [hu1, isSome_matchUpdate]; exact h _ (by simp [pageIds]))]
        dsimp only
        rw [← hu2, hout]
        rfl
      · rw [hrh, hu2, rowCount_valueUpdate, hu1, rowCount_valueUpdate,
          if_neg (by simp [isHumanSuccess])]
        omega
      · rw [hra, hselB, hselC, hu2, rowCount_valueUpdate, hu1,
          rowCount_valueUpdate]
        by_cases hc : JSNum.gt ((parseInt bv).add (parseInt cv))
            (JSNum.num 4) = false ∧ ∃ r, resp = some r ∧ r.success = true
        · rw [if_pos hc, if_pos ((isAiSuccess_iff bv cv resp).mpr hc)]
        · rw [if_neg hc,
            if_neg (fun hx => hc ((isAiSuccess_iff bv cv resp).mp hx))]

lemma runTrace_spec (ui : UI) (es : List GameEvent) (h : wf ui) :
    ∃ ui', runTrace ui es = some ui' ∧ wf ui' ∧
      historyRowCount ui' "humanHistory" =
        historyRowCount ui "humanHistory" + countEvents isHumanSuccess es ∧
      historyRowCount ui' "aiHistory" =
        historyRowCount ui "aiHistory" + countEvents isAiSuccess es := by
  induction es generalizing ui with
  | nil => exact ⟨ui, rfl, h, by simp [countEvents], by simp [countEvents]⟩
  | cons e es ih =>
      obtain ⟨u1, hstep, hwf1, hh1, ha1⟩ := stepEvent_spec ui e h
      obtain ⟨u2, hrun, hwf2, hh2, ha2⟩ := ih u1 hwf1
      refine ⟨u2, ?_, hwf2, ?_, ?_⟩
      · unfold runTrace
        rw [hstep]
        exact hrun
      · rw [hh2, hh1]
        unfold countEvents
        cases hcase : isHumanSuccess e <;> simp [List.filter_cons, hcase] <;> omega
      · rw [ha2, ha1]
        unfold countEvents
        cases hcase : isAiSuccess e <;> simp [List.filter_cons, hcase] <;> omega

lemma wf_gameUI : wf gameUI := by
  intro id hid
  simp only [pageIds, List.mem_cons, List.not_mem_nil, or_false] at hid
  rcases hid with rfl | rfl | rfl | rfl | rfl | rfl | rfl | rfl | rfl | rfl |
    rfl | rfl | rfl | rfl | rfl | rfl | rfl | rfl | rfl | rfl | rfl | rfl <;> rfl

/-! ### The digit-by-digit reveal -/

lemma mk_append (l1 l2 : List Char) :
    String.mk l1 ++ String.mk l2 = String.mk (l1 ++ l2) := by
  apply String.ext
  simp [String.data_append]

lemma stripWhitespace_append (s t : String) :
    stripWhitespace (s ++ t) = stripWhitespace s ++ stripWhitespace t := by
  unfold stripWhitespace
  rw [mk_append]
  apply String.ext
  simp [String.data_append, List.filter_append, String.toList]

lemma stripWhitespace_char (c : Char) (hc : c.isWhitespace = false) :
    stripWhitespace c.toString = String.mk [c] := by
  unfold stripWhitespace
  apply String.ext
  simp [String.toList, data_char_toString, List.filter, hc]

lemma strip_joinSep_toString (l : List Char)
    (hl : ∀ c ∈ l, c.isWhitespace = false) :
    stripWhitespace (joinSep " " (l.map Char.toString)) = String.mk l := by
  induction l with
  | nil => rfl
  | cons c tl ih =>
      cases tl with
      | nil =>
          simp only [List.map_cons, List.map_nil, joinSep]
          exact stripWhitespace_char c (hl c (by simp))
      | cons d tl' =>
          simp only [List.map_cons, joinSep] at *
          rw [stripWhitespace_append, stripWhitespace_append,
            stripWhitespace_char c (hl c (by simp)),
            show stripWhitespace " " = String.mk [] from rfl,
            ih (fun x hx => hl x (by simp at hx ⊢; tauto)),
            mk_append, mk_append]
          simp

lemma strip_tickContent (a b c d : Char)
    (ha : a.isWhitespace = false) (hb : b.isWhitespace = false)
    (hc : c.isWhitespace = false) (hd : d.isWhitespace = false)
    (i : Nat) (hi : i ≤ 3) :
    stripWhitespace (tickContent [a, b, c, d] i) =
      String.mk ([a, b, c, d].take (i + 1) ++ List.replicate (3 - i) '_') := by
  have hstrip : ∀ x ∈ [a, b, c, d], x.isWhitespace = false := by
    intro x hx
    simp at hx
    rcases hx with rfl | rfl | rfl | rfl <;> assumption
  interval_cases i
  · unfold tickContent
    rw [if_pos (by decide), stripWhitespace_append,
      strip_joinSep_toString _ (fun x hx => hstrip x (by
        simp at hx ⊢; tauto)),
      show stripWhitespace (" " ++ jsTrim (strRepeat "_ " (3 - 0))) =
        String.mk (List.replicate (3 - 0) '_') from rfl, mk_append]
  · unfold tickContent
    rw [if_pos (by decide), stripWhitespace_append,
      strip_joinSep_toString _ (fun x hx => hstrip x (by
        simp at hx ⊢; tauto)),
      show stripWhitespace (" " ++ jsTrim (strRepeat "_ " (3 - 1))) =
        String.mk (List.replicate (3 - 1) '_') from rfl, mk_append]
  · unfold tickContent
    rw [if_pos (by decide), stripWhitespace_append,
      strip_joinSep_toString _ (fun x hx => hstrip x (by
        simp at hx ⊢; tauto)),
      show stripWhitespace (" " ++ jsTrim (strRepeat "_ " (3 - 2))) =
        String.mk (List.replicate (3 - 2) '_') from rfl, mk_append]
  · unfold tickContent
    rw [if_neg (by decide), stripWhitespace_append,
      strip_joinSep_toString _ (fun x hx => hstrip x (by
        simp at hx ⊢; tauto)),
      show stripWhitespace "" = String.mk [] from rfl, mk_append]
    simp

lemma revealAfter_state (g : String) (hlen : g.length = 4) (k : Nat)
    (hk : k ≤ 4) :
    (revealAfter g k).timeMs = 180 * k ∧
    (revealAfter g k).cardShown = true ∧
    (revealAfter g k).i = k ∧
    (revealAfter g k).intervalActive = decide (k < 4) ∧
    (revealAfter g k).content =
      (if k = 0 then "_ _ _ _" else tickContent g.toList (k - 1)) := by
  have hlen' : g.toList.length = 4 := hlen
  interval_cases k <;>
    simp [revealAfter, intervalTick, displayAiGuess, hlen, hlen']

lemma strip_revealAfter (g : String) (a b c d : Char)
    (hg : g.toList = [a, b, c, d])
    (ha : a.isWhitespace = false) (hb : b.isWhitespace = false)
    (hc : c.isWhitespace = false) (hd : d.isWhitespace = false)
    (k : Nat) (hk : k ≤ 4) :
    stripWhitespace ((revealAfter g k).content) =
      String.mk (g.toList.take k ++ List.replicate (4 - k) '_') := by
  have hlen : g.length = 4 := by
    show g.toList.length = 4
    rw [hg]
    rfl
  obtain ⟨-, -, -, -, hcontent⟩ := revealAfter_state g hlen k hk
  rw [hcontent]
  by_cases h0 : k = 0
  · subst h0
    rw [if_pos rfl, hg]
    rfl
  · rw [if_neg h0, hg]
    have hk1 : k - 1 ≤ 3 := by omega
    rw [strip_tickContent a b c d ha hb hc hd (k - 1) hk1]
    have : k - 1 + 1 = k := by omega
    rw [this]
    have : 3 - (k - 1) = 4 - k := by omega
    rw [this]

/-- A digit character is not whitespace. -/
lemma isWhitespace_false_of_isDigit (c : Char) (h : c.isDigit = true) :
    c.isWhitespace = false := by
  by_cases h1 : c = ' '
  · subst h1; cases h
  by_cases h2 : c = '\t'
  · subst h2; cases h
  by_cases h3 : c = '\r'
  · subst h3; cases h
  by_cases h4 : c = '\n'
  · subst h4; cases h
  simp [Char.isWhitespace, h1, h2, h3, h4]

/-! ### Claim theorems -/

/-- C1: whenever reading the guess input group yields a string whose length
is not 4, `submitHumanGuess` sends no request to the Game Service (the
recorded request is `none`, no timer is armed), and the inline `humanError`
element — when it resolves — carries the validation message and is shown. -/
theorem C1_guess_length_guard (ui : UI) (resp : Option HumanTurnResponse)
    (h : (getOtpValue ui "guessInputs").length ≠ 4) :
    ∃ out, submitHumanGuess ui resp = some out ∧ out.request = none ∧
      out.scheduled = [] ∧
      (∀ el, getElementById out.ui.dom "humanError" = some el →
        el.textContent = "Fill in all 4 digits." ∧ el.display = "") := by
  unfold submitHumanGuess
  dsimp only
  rw [if_pos h]
  refine ⟨_, rfl, rfl, rfl, ?_⟩
  intro el hel
  rw [showError_eq_matchUpdate, clearError_eq_matchUpdate] at hel
  dsimp only at hel
  rw [dom_matchUpdate, if_pos rfl, dom_matchUpdate, if_pos rfl] at hel
  cases hX : getElementById ui.dom "humanError" with
  | none => rw [hX] at hel; cases hel
  | some e0 =>
      rw [hX] at hel
      simp only [Option.map_some'] at hel
      cases hel
      exact ⟨rfl, rfl⟩

/-- Witness for C1 at the freshly loaded game page with empty inputs and a
transport failure. -/
theorem C1_guess_length_guard_witness :
    (getOtpValue gameUI "guessInputs").length ≠ 4 ∧
      (∃ out, submitHumanGuess gameUI none = some out ∧ out.request = none ∧
        out.scheduled = [] ∧
        (∀ el, getElementById out.ui.dom "humanError" = some el →
          el.textContent = "Fill in all 4 digits." ∧ el.display = "")) :=
  ⟨by decide, C1_guess_length_guard gameUI none (by decide)⟩

/-- C2: when both feedback selects parse to integers whose sum exceeds 4,
`submitAiFeedback` sends no request (the recorded request is `none`, no
timer armed) and the inline `aiError` element — when it resolves — carries
the validation message and is shown. -/
theorem C2_feedback_sum_guard (ui : UI) (resp : Option AiFeedbackResponse)
    (elB elC : Element) (b c : Int)
    (hB : getElementById ui.dom "aiBulls" = some elB)
    (hC : getElementById ui.dom "aiCows" = some elC)
    (hpb : parseInt elB.value = JSNum.num b)
    (hpc : parseInt elC.value = JSNum.num c)
    (hsum : b + c > 4) :
    ∃ out, submitAiFeedback ui resp = some out ∧ out.request = none ∧
      out.scheduled = [] ∧
      (∀ el, getElementById out.ui.dom "aiError" = some el →
        el.textContent = "Bulls + Cows cannot exceed 4." ∧ el.display = "") := by
  unfold submitAiFeedback
  rw [hB, hC]
  dsimp only
  rw [hpb, hpc]
  rw [if_pos (by simp [JSNum.add, JSNum.gt]; exact hsum)]
  refine ⟨_, rfl, rfl, rfl, ?_⟩
  intro el hel
  rw [showError_eq_matchUpdate, clearError_eq_matchUpdate] at hel
  dsimp only at hel
  rw [dom_matchUpdate, if_pos rfl, dom_matchUpdate, if_pos rfl] at hel
  cases hX : getElementById ui.dom "aiError" with
  | none => rw [hX] at hel; cases hel
  | some e0 =>
      rw [hX] at hel
      simp only [Option.map_some'] at hel
      cases hel
      exact ⟨rfl, rfl⟩

/-- Witness for C2 with bulls 3 and cows 2 selected. -/
theorem C2_feedback_sum_guard_witness :
    getElementById aiSumTooBigUI.dom "aiBulls" = some { value := "3" } ∧
    getElementById aiSumTooBigUI.dom "aiCows" = some { value := "2" } ∧
    parseInt "3" = JSNum.num 3 ∧ parseInt "2" = JSNum.num 2 ∧
    (3 : Int) + 2 > 4 ∧
    (∃ out, submitAiFeedback aiSumTooBigUI none = some out ∧
      out.request = none ∧ out.scheduled = [] ∧
      (∀ el, getElementById out.ui.dom "aiError" = some el →
        el.textContent = "Bulls + Cows cannot exceed 4." ∧ el.display = "")) :=
  ⟨by decide, by decide, by decide, by decide, by decide,
    C2_feedback_sum_guard aiSumTooBigUI none { value := "3" } { value := "2" }
      3 2 (by decide) (by decide) (by decide) (by decide) (by decide)⟩

/-- C9: when the bulls select value does not parse as an integer (its
`parseInt` is `NaN`), the `bulls + cows > 4` guard does not block the
submission and a `SubmitAiFeedback` request carrying the `NaN` field is
handed to the transport. -/
theorem C9_nan_bypasses_guard (ui : UI) (resp : Option AiFeedbackResponse)
    (elB elC : Element)
    (hB : getElementById ui.dom "aiBulls" = some elB)
    (hC : getElementById ui.dom "aiCows" = some elC)
    (hn : parseInt elB.value = JSNum.nan) :
    ∃ out, submitAiFeedback ui resp = some out ∧
      out.request = some (JSNum.nan, parseInt elC.value) := by
  unfold submitAiFeedback
  rw [hB, hC]
  dsimp only
  rw [hn]
  have hgt : JSNum.gt (JSNum.add JSNum.nan (parseInt elC.value))
      (JSNum.num 4) = false := by
    cases parseInt elC.value <;> rfl
  rw [if_neg (by rw [hgt]; exact Bool.false_ne_true)]
  cases resp with
  | none => exact ⟨_, rfl, rfl⟩
  | some data =>
      dsimp only
      by_cases hs : data.success = true
      · rw [if_neg (by simp [hs])]
        rw [setValueBang_isSome _ _ _ (by
          rw [isSome_addHistoryRow, isSome_setButtonLoading, isSome_clearError,
            hB]; rfl)]
        dsimp only
        rw [setValueBang_isSome _ _ _ (by
          rw [isSome_matchUpdate, isSome_addHistoryRow, isSome_setButtonLoading,
            isSome_clearError, hC]; rfl)]
        dsimp only
        by_cases hdw : data.won = true
        · rw [if_pos hdw]
          exact ⟨_, rfl, rfl⟩
        · rw [if_neg hdw]
          exact ⟨_, rfl, rfl⟩
      · rw [if_pos (by simp [hs])]
        exact ⟨_, rfl, rfl⟩

/-- Witness for C9: bulls select reads `""` (parses to `NaN`), the service
accepts, and the issued request carries the `NaN` bulls field. -/
theorem C9_nan_bypasses_guard_witness :
    getElementById aiNanUI.dom "aiBulls" = some { value := "" } ∧
    getElementById aiNanUI.dom "aiCows" = some { value := "0" } ∧
    parseInt "" = JSNum.nan ∧
    (∃ out, submitAiFeedback aiNanUI (some { success := true }) = some out ∧
      out.request = some (JSNum.nan, parseInt "0")) :=
  ⟨by decide, by decide, by decide,
    C9_nan_bypasses_guard aiNanUI (some { success := true })
      { value := "" } { value := "0" } (by decide) (by decide) (by decide)⟩

/-- C3 counterexample: the claim says the human log's row count always
equals the number of successful NON-WINNING submissions, but the code
appends the history row before checking `won`, so after a single winning
submission the log holds 1 row while the non-winning count is 0. -/
theorem C3_row_count_counterexample :
    (runTrace gameUI winningHumanTrace).map
        (fun u => historyRowCount u "humanHistory") = some 1 ∧
    countEvents isHumanNonWinningSuccess winningHumanTrace = 0 ∧
    (1 : Nat) ≠ 0 := by
  refine ⟨by decide, by decide, by decide⟩

/-- C3 (amended): after any sequence of submissions each actor's history
log row count equals the number of that actor's successful submissions,
winning ones included (each successful submission appends exactly one
row, before the win check). -/
theorem C3_row_count_amended (es : List GameEvent) :
    ∃ ui', runTrace gameUI es = some ui' ∧
      historyRowCount ui' "humanHistory" = countEvents isHumanSuccess es ∧
      historyRowCount ui' "aiHistory" = countEvents isAiSuccess es := by
  obtain ⟨ui', h1, _, h3, h4⟩ := runTrace_spec gameUI es wf_gameUI
  refine ⟨ui', h1, ?_, ?_⟩
  · rw [h3, show historyRowCount gameUI "humanHistory" = 0 from rfl,
      Nat.zero_add]
  · rw [h4, show historyRowCount gameUI "aiHistory" = 0 from rfl,
      Nat.zero_add]

/-- C8: every modelled operation taking a widget/region id — `getOtpValue`
(read), `clearOtpBoxes` (clear), `show`/`hide`/`showError`/`clearError`,
`addHistoryRow` (history append) and `showWinner` (winner overlay) — is a
no-op (read returns `""`; `showWinner` returns without failing and without
launching confetti) when the id does not resolve. -/
theorem C8_missing_id_noop (ui : UI) (id msg g w : String) (b c : JSNum)
    (s : Option String) (h : getElementById ui.dom id = none) :
    getOtpValue ui id = "" ∧ clearOtpBoxes ui id = ui ∧ show' ui id = ui ∧
    hide' ui id = ui ∧ showError ui id msg = ui ∧ clearError ui id = ui ∧
    addHistoryRow ui id g b c = ui ∧
    (getElementById ui.dom "winOverlay" = none →
      showWinner ui w s = some (ui, false)) := by
  refine ⟨?_, ?_, ?_, ?_, ?_, ?_, ?_, ?_⟩
  · unfold getOtpValue; rw [h]
  · unfold clearOtpBoxes; rw [h]
  · unfold show'; rw [h]
  · unfold hide'; rw [h]
  · unfold showError; rw [h]
  · unfold clearError; rw [h]
  · unfold addHistoryRow; rw [h]
  · intro h2
    unfold showWinner
    rw [h2]

/-- Witness for C8 at the game page with an id the template never uses. -/
theorem C8_missing_id_noop_witness :
    getElementById gameUI.dom "nonexistent" = none ∧
    (getOtpValue gameUI "nonexistent" = "" ∧
     clearOtpBoxes gameUI "nonexistent" = gameUI ∧
     show' gameUI "nonexistent" = gameUI ∧
     hide' gameUI "nonexistent" = gameUI ∧
     showError gameUI "nonexistent" "msg" = gameUI ∧
     clearError gameUI "nonexistent" = gameUI ∧
     addHistoryRow gameUI "nonexistent" "1234" (JSNum.num 1) (JSNum.num 2)
       = gameUI ∧
     (getElementById gameUI.dom "winOverlay" = none →
       showWinner gameUI "human" (some "5678") = some (gameUI, false))) :=
  ⟨by decide,
    C8_missing_id_noop gameUI "nonexistent" "msg" "1234" "human"
      (JSNum.num 1) (JSNum.num 2) (some "5678") (by decide)⟩

/-- C4 counterexample: the claim says the `AiFeedbackInput` controls become
available only after all four digits are shown, but `displayAiGuess` runs
`show('aiCard')` synchronously before the first interval tick: at reveal
start the card (holding the feedback controls) is already visible while the
display still shows four underscore placeholders. -/
theorem C4_controls_counterexample :
    (revealAfter "1234" 0).cardShown = true ∧
    stripWhitespace ((revealAfter "1234" 0).content) = "____" ∧
    ("____" : String) ≠ "1234" :=
  ⟨rfl, rfl, by decide⟩

/-- C4 (amended): the guess is revealed one digit per 180 ms interval tick
(after `k` ticks, 180·k ms have elapsed and exactly the first `k` digits
are shown, the rest as underscores), the interval stops after the fourth
tick — but the AI card with the `AiFeedbackInput` controls is shown from
the start of the reveal, not only after all four digits are visible. -/
theorem C4_reveal_cadence (g : String) (a b c d : Char)
    (hg : g.toList = [a, b, c, d])
    (ha : a.isWhitespace = false) (hb : b.isWhitespace = false)
    (hc : c.isWhitespace = false) (hd : d.isWhitespace = false)
    (k : Nat) (hk : k ≤ 4) :
    (revealAfter g k).timeMs = 180 * k ∧
    (revealAfter g k).cardShown = true ∧
    stripWhitespace ((revealAfter g k).content) =
      String.mk (g.toList.take k ++ List.replicate (4 - k) '_') ∧
    (revealAfter g 4).intervalActive = false := by
  have hlen : g.length = 4 := by
    show g.toList.length = 4
    rw [hg]
    rfl
  obtain ⟨h1, h2, -, -, -⟩ := revealAfter_state g hlen k hk
  refine ⟨h1, h2, strip_revealAfter g a b c d hg ha hb hc hd k hk, ?_⟩
  obtain ⟨-, -, -, h4, -⟩ := revealAfter_state g hlen 4 (by omega)
  rw [h4]
  rfl

/-- Witness for C4 after two of the four ticks of the reveal of `"1234"`. -/
theorem C4_reveal_cadence_witness :
    ("1234" : String).toList = ['1', '2', '3', '4'] ∧
    ('1').isWhitespace = false ∧ ('2').isWhitespace = false ∧
    ('3').isWhitespace = false ∧ ('4').isWhitespace = false ∧ 2 ≤ 4 ∧
    ((revealAfter "1234" 2).timeMs = 180 * 2 ∧
     (revealAfter "1234" 2).cardShown = true ∧
     stripWhitespace ((revealAfter "1234" 2).content) =
       String.mk (("1234" : String).toList.take 2 ++ List.replicate (4 - 2) '_') ∧
     (revealAfter "1234" 4).intervalActive = false) :=
  ⟨by decide, by decide, by decide, by decide, by decide, by decide,
    C4_reveal_cadence "1234" '1' '2' '3' '4' (by decide) (by decide)
      (by decide) (by decide) (by decide) 2 (by decide)⟩

/-- C10: the guess recorded in the AI history log is the whitespace-stripped
text of the on-screen display at the moment feedback is submitted, not the
value `RequestAiTurn` returned: when feedback is submitted after only `k < 4`
reveal ticks, the appended history entry's guess is the first `k` digits
followed by underscore placeholders — it contains `'_'` and differs from
the actual guess. -/
theorem C10_partial_guess_recorded (ui : UI) (r : AiFeedbackResponse)
    (elB elC elD elH : Element) (g : String) (a b c d : Char) (k : Nat)
    (hB : getElementById ui.dom "aiBulls" = some elB)
    (hC : getElementById ui.dom "aiCows" = some elC)
    (hD : getElementById ui.dom "aiGuessDisplay" = some elD)
    (hH : getElementById ui.dom "aiHistory" = some elH)
    (hdisp : elD.textContent = (revealAfter g k).content)
    (hg : g.toList = [a, b, c, d])
    (hda : a.isDigit = true) (hdb : b.isDigit = true)
    (hdc : c.isDigit = true) (hdd : d.isDigit = true)
    (hk : k < 4)
    (hgt : JSNum.gt ((parseInt elB.value).add (parseInt elC.value))
      (JSNum.num 4) = false)
    (hs : r.success = true) :
    ∃ out, submitAiFeedback ui (some r) = some out ∧
      ∃ elH', getElementById out.ui.dom "aiHistory" = some elH' ∧
        elH'.rows = elH.rows ++
          [{ guess := String.mk (g.toList.take k ++ List.replicate (4 - k) '_'),
             bulls := parseInt elB.value, cows := parseInt elC.value }] ∧
        String.mk (g.toList.take k ++ List.replicate (4 - k) '_') ≠ g ∧
        '_' ∈ (String.mk (g.toList.take k ++ List.replicate (4 - k) '_')).toList := by
  have hne : String.mk (g.toList.take k ++ List.replicate (4 - k) '_') ≠ g := by
    intro he
    have hdata : g.toList.take k ++ List.replicate (4 - k) '_' = g.toList :=
      congrArg String.data he
    rw [hg] at hdata
    interval_cases k
    · simp at hdata
      obtain ⟨h1, -, -, -⟩ := hdata
      rw [← h1] at hda
      exact absurd hda (by decide)
    · simp at hdata
      obtain ⟨h1, -, -⟩ := hdata
      rw [← h1] at hdb
      exact absurd hdb (by decide)
    · simp at hdata
      obtain ⟨h1, -⟩ := hdata
      rw [← h1] at hdc
      exact absurd hdc (by decide)
    · simp at hdata
      rw [← hdata] at hdd
      exact absurd hdd (by decide)
  have hmem : '_' ∈ (String.mk (g.toList.take k ++
      List.replicate (4 - k) '_')).toList := by
    show '_' ∈ g.toList.take k ++ List.replicate (4 - k) '_'
    apply List.mem_append_right
    exact List.mem_replicate.mpr ⟨by omega, rfl⟩
  have haw := isWhitespace_false_of_isDigit a hda
  have hbw := isWhitespace_false_of_isDigit b hdb
  have hcw := isWhitespace_false_of_isDigit c hdc
  have hdw := isWhitespace_false_of_isDigit d hdd
  unfold submitAiFeedback
  rw [hB, hC]
  dsimp only
  rw [if_neg (by rw [hgt]; exact Bool.false_ne_true)]
  rw [if_neg (by simp [hs])]
  have hD' : getElementById (setButtonLoading (clearError ui "aiError")
      "btnAiFeedback" true).dom "aiGuessDisplay" = some elD := by
    rw [setButtonLoading_eq_matchUpdate, dom_matchUpdate, if_neg (by decide),
      clearError_eq_matchUpdate, dom_matchUpdate, if_neg (by decide)]
    exact hD
  rw [hD']
  dsimp only
  rw [hdisp, strip_revealAfter g a b c d hg haw hbw hcw hdw k (by omega)]
  have hH1 : getElementById (setButtonLoading (clearError ui "aiError")
      "btnAiFeedback" true).dom "aiHistory" = some elH := by
    rw [setButtonLoading_eq_matchUpdate, dom_matchUpdate, if_neg (by decide),
      clearError_eq_matchUpdate, dom_matchUpdate, if_neg (by decide)]
    exact hH
  rw [setValueBang_isSome _ _ _ (by
    rw [isSome_addHistoryRow, isSome_setButtonLoading, isSome_clearError,
      hB]; rfl)]
  dsimp only
  rw [setValueBang_isSome _ _ _ (by
    rw [isSome_matchUpdate, isSome_addHistoryRow, isSome_setButtonLoading,
      isSome_clearError, hC]; rfl)]
  dsimp only
  by_cases hdwon : r.won = true
  · rw [if_pos hdwon]
    refine ⟨_, rfl, ?_⟩
    rw [setButtonLoading_eq_matchUpdate, dom_matchUpdate, if_neg (by decide),
      hide'_eq_matchUpdate, dom_matchUpdate, if_neg (by decide),
      dom_matchUpdate, if_neg (by decide), dom_matchUpdate,
      if_neg (by decide), addHistoryRow_eq_matchUpdate, dom_matchUpdate,
      if_pos rfl, hH1]
    exact ⟨_, rfl, rfl, hne, hmem⟩
  · rw [if_neg hdwon]
    refine ⟨_, rfl, ?_⟩
    rw [setButtonLoading_eq_matchUpdate, dom_matchUpdate, if_neg (by decide),
      hide'_eq_matchUpdate, dom_matchUpdate, if_neg (by decide),
      dom_matchUpdate, if_neg (by decide), dom_matchUpdate,
      if_neg (by decide), addHistoryRow_eq_matchUpdate, dom_matchUpdate,
      if_pos rfl, hH1]
    exact ⟨_, rfl, rfl, hne, hmem⟩

/-- Witness for C10: feedback submitted after two of the four reveal ticks
of `"1234"`; the recorded guess is `"12__"`. -/
theorem C10_partial_guess_recorded_witness :
    getElementById partialRevealUI.dom "aiBulls" = some { value := "0" } ∧
    getElementById partialRevealUI.dom "aiCows" = some { value := "0" } ∧
    getElementById partialRevealUI.dom "aiGuessDisplay" =
      some { textContent := (revealAfter "1234" 2).content } ∧
    getElementById partialRevealUI.dom "aiHistory" =
      some { hasEmptyPlaceholder := true } ∧
    (2 : Nat) < 4 ∧
    (∃ out, submitAiFeedback partialRevealUI (some { success := true }) =
        some out ∧
      ∃ elH', getElementById out.ui.dom "aiHistory" = some elH' ∧
        elH'.rows = ({ hasEmptyPlaceholder := true } : Element).rows ++
          [{ guess := String.mk (("1234" : String).toList.take 2 ++
               List.replicate (4 - 2) '_'),
             bulls := parseInt "0", cows := parseInt "0" }] ∧
        String.mk (("1234" : String).toList.take 2 ++
          List.replicate (4 - 2) '_') ≠ "1234" ∧
        '_' ∈ (String.mk (("1234" : String).toList.take 2 ++
          List.replicate (4 - 2) '_')).toList) :=
  ⟨by decide, by decide, by decide, by decide, by decide,
    C10_partial_guess_recorded partialRevealUI { success := true }
      { value := "0" } { value := "0" }
      { textContent := (revealAfter "1234" 2).content }
      { hasEmptyPlaceholder := true } "1234" '1' '2' '3' '4' 2
      (by decide) (by decide) (by decide) (by decide) rfl (by decide)
      (by decide) (by decide) (by decide) (by decide) (by decide)
      (by decide) (by decide)⟩

/-- C5: pasting writes exactly the first 4 digit characters of the
clipboard (non-digits ignored, the rest discarded) left-to-right from cell
0, marks each written cell filled, leaves the remaining cells untouched,
and focuses the first empty cell — or the last cell when none is empty. -/
theorem C5_paste (boxes : List OtpBox) (clip : String) (h : boxes.length = 4) :
    (pasteHandler boxes clip).1.length = 4 ∧
    (∀ (i : Nat) (ch : Char),
      ((clip.toList.filter (fun c => c.isDigit)).take 4)[i]? = some ch →
      (pasteHandler boxes clip).1[i]? =
        some ({ value := ch.toString, filled := true } : OtpBox)) ∧
    (∀ (i : Nat),
      ((clip.toList.filter (fun c => c.isDigit)).take 4)[i]? = none →
      (pasteHandler boxes clip).1[i]? = boxes[i]?) ∧
    ((∃ (i : Nat) (bx : OtpBox),
        (pasteHandler boxes clip).1[i]? = some bx ∧ bx.value = "") →
      (∃ bx : OtpBox,
        (pasteHandler boxes clip).1[(pasteHandler boxes clip).2]? =
          some bx ∧ bx.value = "") ∧
      ∀ (j : Nat), j < (pasteHandler boxes clip).2 →
        ∀ (bx : OtpBox),
          (pasteHandler boxes clip).1[j]? = some bx → bx.value ≠ "") ∧
    ((∀ (i : Nat) (bx : OtpBox),
        (pasteHandler boxes clip).1[i]? = some bx → bx.value ≠ "") →
      (pasteHandler boxes clip).2 = 3) := by
  have hw : (pasteHandler boxes clip).1 = pasteWrite boxes (pasteDigits clip) :=
    rfl
  have hlen : (pasteHandler boxes clip).1.length = 4 := by
    rw [hw]
    unfold pasteWrite
    rw [List.length_mapIdx, h]
  refine ⟨hlen, ?_, ?_, ?_, ?_⟩
  · intro i ch hch
    have hch' : (pasteDigits clip)[i]? = some ch := hch
    have hi : i < (pasteDigits clip).length := by
      by_contra hcon
      rw [List.getElem?_eq_none (by omega)] at hch'
      cases hch'
    have hi4 : i < 4 := by
      have : (pasteDigits clip).length ≤ 4 := by
        unfold pasteDigits
        exact List.length_take_le 4 _
      omega
    rw [hw]
    unfold pasteWrite
    rw [List.getElem?_mapIdx]
    cases hbx : boxes[i]? with
    | none =>
        rw [List.getElem?_eq_none_iff] at hbx
        omega
    | some bx =>
        simp only [Option.map_some']
        rw [List.get?_eq_getElem?, hch']
  · intro i hnone
    have hnone' : (pasteDigits clip)[i]? = none := hnone
    rw [hw]
    unfold pasteWrite
    rw [List.getElem?_mapIdx]
    cases hbx : boxes[i]? with
    | none => rfl
    | some bx =>
        simp only [Option.map_some']
        rw [List.get?_eq_getElem?, hnone']
  · intro hex
    have hfoc : (pasteHandler boxes clip).2 =
        match (pasteWrite boxes (pasteDigits clip)).findIdx?
            (fun b => b.value = "") with
        | some j => j
        | none => (pasteWrite boxes (pasteDigits clip)).length - 1 := rfl
    cases hf : (pasteWrite boxes (pasteDigits clip)).findIdx?
        (fun b => b.value = "") with
    | none =>
        exfalso
        rw [List.findIdx?_eq_none_iff] at hf
        obtain ⟨i, bx, hbx, hval⟩ := hex
        rw [hw] at hbx
        rw [List.getElem?_eq_some_iff] at hbx
        obtain ⟨hlt, heq⟩ := hbx
        have hmem : bx ∈ pasteWrite boxes (pasteDigits clip) := by
          rw [← heq]
          exact List.getElem_mem hlt
        have := hf bx hmem
        simp [hval] at this
    | some j =>
        have hj : (pasteHandler boxes clip).2 = j := by rw [hfoc, hf]
        rw [List.findIdx?_eq_some_iff_getElem] at hf
        obtain ⟨hjlen, hpj, hprev⟩ := hf
        constructor
        · refine ⟨(pasteWrite boxes (pasteDigits clip))[j], ?_, ?_⟩
          · rw [hw, hj]
            exact List.getElem?_eq_getElem hjlen
          · simpa using hpj
        · intro k hk bx hbx
          rw [hj] at hk
          have hk4 : k < (pasteWrite boxes (pasteDigits clip)).length := by
            omega
          have hk' := hprev k hk
          rw [hw, List.getElem?_eq_getElem hk4] at hbx
          have hbxeq : (pasteWrite boxes (pasteDigits clip))[k] = bx :=
            Option.some.inj hbx
          rw [← hbxeq]
          intro hveq
          exact hk' (by simp [hveq])
  · intro hall
    cases hf : (pasteWrite boxes (pasteDigits clip)).findIdx?
        (fun b => b.value = "") with
    | none =>
        show (match (pasteWrite boxes (pasteDigits clip)).findIdx?
            (fun b => b.value = "") with
          | some j => j
          | none => (pasteWrite boxes (pasteDigits clip)).length - 1) = 3
        rw [hf]
        have : (pasteWrite boxes (pasteDigits clip)).length = 4 := hlen
        rw [this]
    | some j =>
        exfalso
        rw [List.findIdx?_eq_some_iff_getElem] at hf
        obtain ⟨hjlen, hpj, -⟩ := hf
        have := hall j (pasteWrite boxes (pasteDigits clip))[j]
          (by rw [hw]; exact List.getElem?_eq_getElem hjlen)
        simp at hpj
        exact this hpj

/-- Witness for C5: pasting `"a1b2c3d4e5"` into a full group. -/
theorem C5_paste_witness :
    ([⟨"9", true⟩, ⟨"9", true⟩, ⟨"9", true⟩, ⟨"9", true⟩] :
        List OtpBox).length = 4 ∧
    ((pasteHandler [⟨"9", true⟩, ⟨"9", true⟩, ⟨"9", true⟩, ⟨"9", true⟩]
        "a1b2c3d4e5").1.length = 4 ∧
     (∀ (i : Nat) (ch : Char), ((("a1b2c3d4e5" : String).toList.filter
          (fun c => c.isDigit)).take 4)[i]? = some ch →
        (pasteHandler [⟨"9", true⟩, ⟨"9", true⟩, ⟨"9", true⟩, ⟨"9", true⟩]
          "a1b2c3d4e5").1[i]? =
          some ({ value := ch.toString, filled := true } : OtpBox)) ∧
     (∀ (i : Nat), ((("a1b2c3d4e5" : String).toList.filter
          (fun c => c.isDigit)).take 4)[i]? = none →
        (pasteHandler [⟨"9", true⟩, ⟨"9", true⟩, ⟨"9", true⟩, ⟨"9", true⟩]
          "a1b2c3d4e5").1[i]? =
        ([⟨"9", true⟩, ⟨"9", true⟩, ⟨"9", true⟩, ⟨"9", true⟩] :
          List OtpBox)[i]?) ∧
     ((∃ (i : Nat) (bx : OtpBox),
          (pasteHandler [⟨"9", true⟩, ⟨"9", true⟩, ⟨"9", true⟩,
          ⟨"9", true⟩] "a1b2c3d4e5").1[i]? = some bx ∧ bx.value = "") →
       (∃ bx : OtpBox,
          (pasteHandler [⟨"9", true⟩, ⟨"9", true⟩, ⟨"9", true⟩,
            ⟨"9", true⟩] "a1b2c3d4e5").1[
          (pasteHandler [⟨"9", true⟩, ⟨"9", true⟩, ⟨"9", true⟩, ⟨"9", true⟩]
            "a1b2c3d4e5").2]? = some bx ∧ bx.value = "") ∧
       ∀ (j : Nat), j < (pasteHandler [⟨"9", true⟩, ⟨"9", true⟩, ⟨"9", true⟩,
            ⟨"9", true⟩] "a1b2c3d4e5").2 →
         ∀ (bx : OtpBox),
           (pasteHandler [⟨"9", true⟩, ⟨"9", true⟩, ⟨"9", true⟩,
            ⟨"9", true⟩] "a1b2c3d4e5").1[j]? = some bx → bx.value ≠ "") ∧
     ((∀ (i : Nat) (bx : OtpBox),
          (pasteHandler [⟨"9", true⟩, ⟨"9", true⟩, ⟨"9", true⟩,
          ⟨"9", true⟩] "a1b2c3d4e5").1[i]? = some bx → bx.value ≠ "") →
       (pasteHandler [⟨"9", true⟩, ⟨"9", true⟩, ⟨"9", true⟩, ⟨"9", true⟩]
          "a1b2c3d4e5").2 = 3)) :=
  ⟨by decide,
    C5_paste [⟨"9", true⟩, ⟨"9", true⟩, ⟨"9", true⟩, ⟨"9", true⟩]
      "a1b2c3d4e5" (by decide)⟩

/-- C6: from a fully filled 4-cell group with focus on the last cell, four
delete-backward key presses leave every cell empty with its filled flag
cleared and focus on the first cell. -/
theorem C6_backspace_through_full (b0 b1 b2 b3 : OtpBox)
    (h0 : b0.value ≠ "") (h1 : b1.value ≠ "") (h2 : b2.value ≠ "")
    (h3 : b3.value ≠ "") :
    backspaceN 4 ([b0, b1, b2, b3], 3) =
      ([emptyBox, emptyBox, emptyBox, emptyBox], 0) := by
  simp [backspaceN, backspaceHandler, h3, emptyBox]

/-- Witness for C6 on the group filled with `1 2 3 4`. -/
theorem C6_backspace_through_full_witness :
    (⟨"1", true⟩ : OtpBox).value ≠ "" ∧ (⟨"2", true⟩ : OtpBox).value ≠ "" ∧
    (⟨"3", true⟩ : OtpBox).value ≠ "" ∧ (⟨"4", true⟩ : OtpBox).value ≠ "" ∧
    backspaceN 4 ([⟨"1", true⟩, ⟨"2", true⟩, ⟨"3", true⟩, ⟨"4", true⟩], 3) =
      ([emptyBox, emptyBox, emptyBox, emptyBox], 0) :=
  ⟨by decide, by decide, by decide, by decide,
    C6_backspace_through_full ⟨"1", true⟩ ⟨"2", true⟩ ⟨"3", true⟩ ⟨"4", true⟩
      (by decide) (by decide) (by decide) (by decide)⟩

/-- C7: `launchConfetti` spawns exactly 140 particles for every stream of
`Math.random()` results and every viewport width; the hard-stop timer is
armed at 5000 ms, and when it fires the canvas is cleared, the pending frame
callback is cancelled, and any later `loop` invocation — even with
particles still inside the vertical bound — schedules no further frame. -/
theorem C7_confetti_spawn_and_stop (rand : Nat → ℚ) (width height : ℚ)
    (s : ConfettiState) :
    (spawnParticles rand width).length = 140 ∧
    confettiStopDelayMs = 5000 ∧
    (timeoutStep s).drawn = [] ∧
    (timeoutStep s).frameScheduled = false ∧
    (timeoutStep s).done = true ∧
    (∀ s' : ConfettiState, s'.done = true →
      (∃ p ∈ s'.particles, ¬ (p.y > height + 20)) →
      (loopStep height s').frameScheduled = false) := by
  refine ⟨?_, rfl, rfl, rfl, rfl, ?_⟩
  · unfold spawnParticles
    rw [List.length_map, List.length_range]
  · intro s' hdone _
    unfold loopStep
    simp [hdone]

/-- Witness for C7: the all-zero random stream, a 100×100 surface and a
stopped state that still holds an in-bounds particle. -/
theorem C7_confetti_spawn_and_stop_witness :
    (spawnParticles (fun _ => 0) 100).length = 140 ∧
    confettiStopDelayMs = 5000 ∧
    (timeoutStep (launchState (fun _ => 0) 100)).drawn = [] ∧
    (timeoutStep (launchState (fun _ => 0) 100)).frameScheduled = false ∧
    (timeoutStep (launchState (fun _ => 0) 100)).done = true ∧
    (∀ s' : ConfettiState, s'.done = true →
      (∃ p ∈ s'.particles, ¬ (p.y > (100 : ℚ) + 20)) →
      (loopStep 100 s').frameScheduled = false) :=
  C7_confetti_spawn_and_stop (fun _ => 0) 100 100
    (launchState (fun _ => 0) 100)

end BullsCows
